import Mathlib

/-!
Verification of the tryit-ai structured-response parser and safety content filter.

The development shallowly embeds two TypeScript modules:
  * the structured-response parser cascade (`StructuredResponseParser` with its
    six strategies) together with the validators from
    `structured-response/types.ts`, and
  * the intent-based safety content filter (`NoahContentFilter.checkContent`
    and its seven category evaluators) from `safety/content-filter.ts`.

Strings are modelled as `List Char`.  JavaScript regular-expression `test`
calls are modelled with a small Brzozowski-derivative engine over an abstract
syntax in which Kleene star is only applied to a character class — every
regular expression appearing in the source has that shape.  Derivative
matching decides match existence, which is exactly what a backtracking
engine's `test` reports; an end-of-input assertion (with a separate
end-of-input nullability) compiles the few trailing `\b` word boundaries.  `JSON.parse` is modelled by an exact JSON parser producing
rational numbers (JS numbers are IEEE doubles; for the decimal literals the
code compares against — 0, 1, 0.6 … 0.95 — the rational semantics agrees).
Logging calls are side-effect free in the source and are dropped.
-/

set_option maxRecDepth 100000

namespace TryItAI

/-- Strings are lists of characters (JS strings, restricted to ASCII inputs). -/
abbrev Str := List Char

/-- Shorthand turning a Lean string literal into the `List Char` model. -/
def strL (s : String) : Str := s.data

/-- JS `String.prototype.toLowerCase` (ASCII fragment). -/
def lowerStr (s : Str) : Str := s.map Char.toLower

/-- JS `\s` / `String.prototype.trim` whitespace (ASCII fragment:
space, tab, newline, carriage return, vertical tab, form feed). -/
def wsC (c : Char) : Bool :=
  c == ' ' || c == '\t' || c == '\n' || c == '\r' ||
  c == Char.ofNat 11 || c == Char.ofNat 12

/-- JS `\w` word characters: ASCII letters, digits and underscore. -/
def wordC (c : Char) : Bool :=
  ('a' ≤ c && c ≤ 'z') || ('A' ≤ c && c ≤ 'Z') || ('0' ≤ c && c ≤ '9') || c == '_'

/-- The left brace character (written by code point). -/
def lbrace : Char := Char.ofNat 123

/-- The right brace character (written by code point). -/
def rbrace : Char := Char.ofNat 125

/-- Test whether `s` begins with `pat` (JS `String.startsWith`). -/
def startsWithL : Str → Str → Bool
  | [], _ => true
  | _ :: _, [] => false
  | a :: as, b :: bs => a == b && startsWithL as bs

/-- JS `String.prototype.includes`: `pat` occurs as a contiguous substring. -/
def includesL (pat : Str) : Str → Bool
  | [] => startsWithL pat []
  | c :: t => startsWithL pat (c :: t) || includesL pat t

/-- Case-insensitive `startsWithL` (for regexes carrying the `i` flag);
the pattern is given in lower case. -/
def startsWithCI : Str → Str → Bool
  | [], _ => true
  | _ :: _, [] => false
  | a :: as, b :: bs => a == b.toLower && startsWithCI as bs

/-- JS `String.prototype.trim` (ASCII whitespace fragment). -/
def trimL (s : Str) : Str :=
  ((s.dropWhile wsC).reverse.dropWhile wsC).reverse

/-- Remainder of `s` strictly after the first occurrence of `pat`
(`none` when `pat` does not occur). -/
def afterFirst (pat : Str) : Str → Option Str
  | [] => if startsWithL pat [] then some [] else none
  | c :: t =>
    if startsWithL pat (c :: t) then some (List.drop pat.length (c :: t))
    else afterFirst pat t

/-- Prefix of `s` strictly before the first occurrence of `pat`
(`none` when `pat` does not occur). -/
def beforeFirst (pat : Str) : Str → Option Str
  | [] => if startsWithL pat [] then some [] else none
  | c :: t =>
    if startsWithL pat (c :: t) then some []
    else (beforeFirst pat t).map (c :: ·)

/-- Cut `s` at the first occurrence of `pat`; the whole of `s` when absent. -/
def cutAt (pat : Str) (s : Str) : Str :=
  match beforeFirst pat s with
  | some pre => pre
  | none => s

section Engine

/-- Regular expressions as they occur in the source: literals and classes,
concatenation, alternation, star over a character class only, and an
end-of-input assertion (used to express trailing `\b` word boundaries). -/
inductive RE where
  | eps : RE
  | cls : (Char → Bool) → RE
  | seq : RE → RE → RE
  | alt : RE → RE → RE
  | starC : (Char → Bool) → RE
  | eos : RE

/-- The empty language (a character class no character satisfies). -/
def rEmpty : RE := .cls (fun _ => false)

/-- Nullability away from the end of the input: can the expression match the
empty string at a position that still has characters after it?  (`eos`
cannot.) -/
def nullMid : RE → Bool
  | .eps => true
  | .cls _ => false
  | .seq a b => nullMid a && nullMid b
  | .alt a b => nullMid a || nullMid b
  | .starC _ => true
  | .eos => false

/-- Nullability at the end of the input (`eos` holds there). -/
def nullEnd : RE → Bool
  | .eps => true
  | .cls _ => false
  | .seq a b => nullEnd a && nullEnd b
  | .alt a b => nullEnd a || nullEnd b
  | .starC _ => true
  | .eos => true

/-- Concatenation collapsing a leading `eps` (a standard derivative
simplification; the language is unchanged). -/
def mkSeq : RE → RE → RE
  | .eps, b => b
  | a, b => .seq a b

/-- Brzozowski derivative with respect to one character.  Consuming a
character means the position is not the end of the input, so the `seq` case
uses `nullMid`. -/
def deriv : RE → Char → RE
  | .eps, _ => rEmpty
  | .cls p, c => if p c then .eps else rEmpty
  | .seq a b, c =>
    if nullMid a then .alt (mkSeq (deriv a c) b) (deriv b c)
    else mkSeq (deriv a c) b
  | .alt a b, c => .alt (deriv a c) (deriv b c)
  | .starC p, c => if p c then .starC p else rEmpty
  | .eos, _ => rEmpty

/-- Matching relation: `pmatch r s = true` iff `r` matches some prefix of `s`
(with `eos` asserting the end of `s`).  Derivative matching decides match
existence, which is exactly what a backtracking engine's `test` reports. -/
def pmatch : RE → Str → Bool
  | r, [] => nullEnd r
  | r, c :: t => nullMid r || pmatch (deriv r c) t

/-- Search relation: `rsearch r s` holds iff `r` matches somewhere inside
`s` — the semantics of JS `RegExp.prototype.test` for the (unanchored)
patterns of the source. -/
def rsearch (r : RE) : Str → Bool
  | [] => pmatch r []
  | c :: t => pmatch r (c :: t) || rsearch r t

/-- Literal regex for a concrete character sequence. -/
def litR : Str → RE
  | [] => .eps
  | c :: cs => .seq (.cls (· == c)) (litR cs)

/-- Literal regex from a Lean string literal. -/
def rl (s : String) : RE := litR s.data

/-- Case-insensitive literal (for `i`-flagged regexes; give it in lower case). -/
def litCI : Str → RE
  | [] => .eps
  | c :: cs => .seq (.cls (fun b => b.toLower == c)) (litCI cs)

/-- Case-insensitive literal from a Lean string literal. -/
def rlCI (s : String) : RE := litCI s.data

/-- n-ary concatenation. -/
def rseq : List RE → RE
  | [] => .eps
  | [r] => r
  | r :: rs => .seq r (rseq rs)

/-- n-ary alternation (left-to-right, as JS tries alternatives). -/
def ralt : List RE → RE
  | [] => .cls (fun _ => false)
  | [r] => r
  | r :: rs => .alt r (ralt rs)

/-- Alternation of plain word literals. -/
def altW (l : List String) : RE := ralt (l.map rl)

/-- Class of `.` in a JS regex without the `s` flag: any character except newline. -/
def dotC (c : Char) : Bool := c != '\n'

/-- Star of dot: `.*`. -/
def dotS : RE := .starC dotC

/-- Star over truly any character: `[\s\S]*`. -/
def anyS : RE := .starC (fun _ => true)

/-- Star of whitespace: `\s*`. -/
def wsS : RE := .starC wsC

/-- Star over whitespace or hyphen: `[\s\-]*`. -/
def wsDashS : RE := .starC (fun c => wsC c || c == '-')

/-- Digit class `\d`. -/
def digitC (c : Char) : Bool := '0' ≤ c && c ≤ '9'

/-- One or more digits: `\d+`. -/
def digitP : RE := .seq (.cls digitC) (.starC digitC)

/-- A single concrete character. -/
def chR (c : Char) : RE := .cls (· == c)

/-- Optionality `x?`. -/
def ropt (r : RE) : RE := .alt r .eps

/-- A word boundary placed after a word character: the next character is a
non-word character, or the input ends.  (All `\b` in the source sit after a
word character, so this is the faithful compilation.) -/
def wb : RE := .alt (.cls (fun c => !wordC c)) .eos

/-- A non-word, non-newline character.  Used to compile `X.*\bD` where the
alternatives of `X` end in word characters and `D` starts with one: the
boundary can only be realised by a non-word character eaten by `.*` (hence
not a newline). -/
def nwNN (c : Char) : Bool := !wordC c && c != '\n'

end Engine

section EngineLemmas

theorem startsWithL_append (n t : Str) : startsWithL n (n ++ t) = true := by
  induction n with
  | nil => simp [startsWithL]
  | cons c cs ih => simp [startsWithL, ih]

theorem startsWithL_elim {n s : Str} (h : startsWithL n s = true) :
    ∃ v, s = n ++ v := by
  induction n generalizing s with
  | nil => exact ⟨s, rfl⟩
  | cons c cs ih =>
    cases s with
    | nil => simp [startsWithL] at h
    | cons b bs =>
      simp only [startsWithL, Bool.and_eq_true, beq_iff_eq] at h
      obtain ⟨v, hv⟩ := ih h.2
      exact ⟨v, by simp [h.1, hv]⟩

theorem includesL_elim {n s : Str} (h : includesL n s = true) :
    ∃ u v, s = u ++ n ++ v := by
  induction s with
  | nil =>
    simp only [includesL] at h
    obtain ⟨v, hv⟩ := startsWithL_elim h
    exact ⟨[], v, by simpa using hv⟩
  | cons c t ih =>
    simp only [includesL, Bool.or_eq_true] at h
    rcases h with h | h
    · obtain ⟨v, hv⟩ := startsWithL_elim h
      exact ⟨[], v, by simpa using hv⟩
    · obtain ⟨u, v, huv⟩ := ih h
      exact ⟨c :: u, v, by simp [huv]⟩

theorem includesL_of_starts {n s : Str} (h : startsWithL n s = true) :
    includesL n s = true := by
  cases s with
  | nil => simpa [includesL] using h
  | cons c t => simp [includesL, h]

theorem includesL_cons_of {n t : Str} (c : Char) (h : includesL n t = true) :
    includesL n (c :: t) = true := by
  simp [includesL, h]

theorem includesL_intro (n u v : Str) : includesL n (u ++ n ++ v) = true := by
  induction u with
  | nil => exact includesL_of_starts (by simpa using startsWithL_append n v)
  | cons c cs ih => simpa using includesL_cons_of c ih

theorem pmatch_rEmpty (t : Str) : pmatch rEmpty t = false := by
  induction t with
  | nil => rfl
  | cons c u ih => simpa [pmatch, rEmpty, deriv, nullMid] using ih

theorem pmatch_rEmpty_seq (r : RE) (t : Str) :
    pmatch (RE.seq rEmpty r) t = false := by
  induction t with
  | nil => rfl
  | cons c u ih =>
    simpa [pmatch, deriv, nullMid, mkSeq, rEmpty] using ih

theorem pmatch_alt (a b : RE) (t : Str) :
    pmatch (RE.alt a b) t = (pmatch a t || pmatch b t) := by
  induction t generalizing a b with
  | nil => simp [pmatch, nullEnd]
  | cons c u ih =>
    simp only [pmatch, deriv, nullMid, ih]
    cases nullMid a <;> cases nullMid b <;>
      cases pmatch (deriv a c) u <;> cases pmatch (deriv b c) u <;> rfl

theorem pmatch_eps_seq (r : RE) (t : Str) :
    pmatch (RE.seq .eps r) t = pmatch r t := by
  cases t with
  | nil => simp [pmatch, nullEnd]
  | cons c u =>
    have hd : deriv (RE.seq .eps r) c = RE.alt (RE.seq rEmpty r) (deriv r c) := by
      simp [deriv, nullMid, mkSeq, rEmpty]
    have h1 : pmatch (RE.seq .eps r) (c :: u)
        = (nullMid (RE.seq .eps r) || pmatch (deriv (RE.seq .eps r) c) u) := rfl
    rw [h1, hd, pmatch_alt, pmatch_rEmpty_seq]
    simp [nullMid, pmatch]

theorem lit_self (w : Str) (t : Str) : pmatch (litR w) (w ++ t) = true := by
  induction w with
  | nil =>
    cases t <;> simp [litR, pmatch, nullEnd, nullMid]
  | cons c cs ih =>
    have hd : deriv (litR (c :: cs)) c = litR cs := by
      simp [litR, deriv, nullMid, mkSeq]
    have h1 : pmatch (litR (c :: cs)) ((c :: cs) ++ t)
        = (nullMid (litR (c :: cs)) || pmatch (deriv (litR (c :: cs)) c) (cs ++ t)) := rfl
    rw [h1, hd]
    simp [litR, nullMid, ih]

theorem pmatch_litR_seq (w : Str) (r : RE) (t : Str) :
    pmatch (RE.seq (litR w) r) (w ++ t) = pmatch r t := by
  induction w with
  | nil => simpa [litR] using pmatch_eps_seq r t
  | cons c cs ih =>
    have h1 : pmatch (RE.seq (litR (c :: cs)) r) ((c :: cs) ++ t)
        = (nullMid (RE.seq (litR (c :: cs)) r) ||
           pmatch (deriv (RE.seq (litR (c :: cs)) r) c) (cs ++ t)) := rfl
    cases cs with
    | nil =>
      have hd : deriv (RE.seq (litR [c]) r) c = r := by
        simp [litR, deriv, nullMid, mkSeq]
      rw [h1, hd]
      simp [litR, nullMid]
    | cons d ds =>
      have hd : deriv (RE.seq (litR (c :: d :: ds)) r) c
          = RE.seq (litR (d :: ds)) r := by
        simp [litR, deriv, nullMid, mkSeq]
      rw [h1, hd]
      simp only [litR, nullMid, Bool.false_and, Bool.and_false, Bool.false_or]
      exact ih

theorem rsearch_of_pmatch {r : RE} {s : Str} (h : pmatch r s = true) :
    rsearch r s = true := by
  cases s with
  | nil => simpa [rsearch] using h
  | cons c t => simp [rsearch, h]

theorem rsearch_cons_of {r : RE} {t : Str} (c : Char) (h : rsearch r t = true) :
    rsearch r (c :: t) = true := by
  simp [rsearch, h]

theorem rsearch_of_suffix {r : RE} {v : Str} (u : Str)
    (h : pmatch r v = true) : rsearch r (u ++ v) = true := by
  induction u with
  | nil => simpa using rsearch_of_pmatch h
  | cons c cs ih => simpa using rsearch_cons_of c ih

end EngineLemmas

section Json

/-- JSON values as produced by `JSON.parse`.  Numbers are modelled exactly as
rationals (JS numbers are doubles; all numeric comparisons performed by the
code involve small decimal literals, on which the semantics agree). -/
inductive JVal where
  | jnull : JVal
  | jbool : Bool → JVal
  | jnum : ℚ → JVal
  | jstr : Str → JVal
  | jarr : List JVal → JVal
  | jobj : List (Str × JVal) → JVal

/-- JSON whitespace (space, tab, newline, carriage return). -/
def jWsC (c : Char) : Bool := c == ' ' || c == '\t' || c == '\n' || c == '\r'

/-- Skip JSON whitespace. -/
def skipJWs (s : Str) : Str := s.dropWhile jWsC

/-- Value of a hexadecimal digit. -/
def hexVal (c : Char) : Option Nat :=
  let n := c.toNat
  if 48 ≤ n ∧ n ≤ 57 then some (n - 48)
  else if 97 ≤ n ∧ n ≤ 102 then some (n - 97 + 10)
  else if 65 ≤ n ∧ n ≤ 70 then some (n - 65 + 10)
  else none

/-- Single-character JSON string escapes. -/
def escSimple (e : Char) : Option Char :=
  if e == '"' then some '"'
  else if e == '\\' then some '\\'
  else if e == '/' then some '/'
  else if e == 'b' then some (Char.ofNat 8)
  else if e == 'f' then some (Char.ofNat 12)
  else if e == 'n' then some '\n'
  else if e == 'r' then some '\r'
  else if e == 't' then some '\t'
  else none

/-- Parse the body of a JSON string after the opening quote; returns the
decoded characters and the input after the closing quote.  (Lone surrogate
`\u` escapes are outside the modelled ASCII fragment.) -/
def pStrBody : Nat → Str → Option (Str × Str)
  | 0, _ => none
  | _ + 1, [] => none
  | f + 1, c :: t =>
    if c == '"' then some ([], t)
    else if c == '\\' then
      match t with
      | [] => none
      | e :: t2 =>
        if e == 'u' then
          match t2 with
          | h1 :: h2 :: h3 :: h4 :: t3 =>
            match hexVal h1, hexVal h2, hexVal h3, hexVal h4 with
            | some a, some b, some x, some d =>
              (pStrBody f t3).map (fun br =>
                (Char.ofNat (((a * 16 + b) * 16 + x) * 16 + d) :: br.1, br.2))
            | _, _, _, _ => none
          | _ => none
        else
          match escSimple e with
          | some d => (pStrBody f t2).map (fun br => (d :: br.1, br.2))
          | none => none
    else if c.toNat < 32 then none
    else (pStrBody f t).map (fun br => (c :: br.1, br.2))

/-- Numeric value of a digit string. -/
def digitsToNat : Str → Nat
  | [] => 0
  | c :: t => digitsToNat t + (c.toNat - '0'.toNat) * 10 ^ t.length

/-- Assemble the exact rational value of a JSON number from its parts: sign,
mantissa `m` (integer and fraction digits) scaled by `10 ^ fLen`, and decimal
exponent.  A single `mkRat` over integer arithmetic keeps the construction
kernel-computable (the `Rat` field operations are opaque to the kernel). -/
def jnumVal (neg : Bool) (m : Nat) (fLen : Nat) (eneg : Bool) (e : Nat) : ℚ :=
  let num : Int := if neg then -(Int.ofNat m) else Int.ofNat m
  if eneg then mkRat num (10 ^ fLen * 10 ^ e)
  else mkRat (num * Int.ofNat (10 ^ e)) (10 ^ fLen)

/-- Parse the optional fraction and exponent following integer part `ip`. -/
def pNumTail (neg : Bool) (ip : Nat) (s : Str) : Option (ℚ × Str) :=
  let fds : Option Str :=
    match s with
    | c :: t => if c == '.' then some (t.takeWhile digitC) else none
    | [] => none
  let s1 : Str :=
    match s with
    | c :: t => if c == '.' then t.dropWhile digitC else s
    | [] => s
  match fds with
  | some [] => none
  | _ =>
    let fLen : Nat := match fds with | some ds => ds.length | none => 0
    let m : Nat :=
      ip * 10 ^ fLen + (match fds with | some ds => digitsToNat ds | none => 0)
    match s1 with
    | c :: t =>
      if c == 'e' || c == 'E' then
        let en : Bool × Str :=
          match t with
          | d :: t2 =>
            if d == '+' then (false, t2)
            else if d == '-' then (true, t2)
            else (false, t)
          | [] => (false, t)
        let eds := en.2.takeWhile digitC
        if eds.isEmpty then none
        else
          some (jnumVal neg m fLen en.1 (digitsToNat eds), en.2.dropWhile digitC)
      else some (jnumVal neg m fLen false 0, s1)
    | [] => some (jnumVal neg m fLen false 0, s1)

/-- Parse a JSON number. -/
def pNum (s : Str) : Option (ℚ × Str) :=
  let neg : Bool := match s with | c :: _ => c == '-' | [] => false
  let s1 : Str := match s with | c :: t => if c == '-' then t else s | [] => s
  match s1 with
  | c :: t =>
    if c == '0' then pNumTail neg 0 t
    else if digitC c then
      pNumTail neg (digitsToNat ((c :: t).takeWhile digitC)) ((c :: t).dropWhile digitC)
    else none
  | [] => none

mutual

/-- Parse a JSON value (fuel-indexed recursive descent; the fuel is an upper
bound on nesting depth, which consumes at least one character per level). -/
def pVal : Nat → Str → Option (JVal × Str)
  | 0, _ => none
  | f + 1, s =>
    match s with
    | [] => none
    | c :: t =>
      if c == lbrace then
        match skipJWs t with
        | c2 :: t2 =>
          if c2 == rbrace then some (.jobj [], t2)
          else (pMembers f (skipJWs t) []).map (fun lr => (JVal.jobj lr.1, lr.2))
        | [] => none
      else if c == '[' then
        match skipJWs t with
        | c2 :: t2 =>
          if c2 == ']' then some (.jarr [], t2)
          else (pElems f (skipJWs t) []).map (fun lr => (JVal.jarr lr.1, lr.2))
        | [] => none
      else if c == '"' then
        (pStrBody (t.length + 1) t).map (fun br => (JVal.jstr br.1, br.2))
      else if startsWithL (strL "true") s then some (.jbool true, s.drop 4)
      else if startsWithL (strL "false") s then some (.jbool false, s.drop 5)
      else if startsWithL (strL "null") s then some (.jnull, s.drop 4)
      else (pNum s).map (fun qr => (JVal.jnum qr.1, qr.2))

/-- Parse the members of a JSON object (after `{`, first key expected). -/
def pMembers : Nat → Str → List (Str × JVal) → Option (List (Str × JVal) × Str)
  | 0, _, _ => none
  | f + 1, s, acc =>
    match s with
    | c :: t =>
      if c == '"' then
        match pStrBody (t.length + 1) t with
        | none => none
        | some (k, r1) =>
          match skipJWs r1 with
          | c2 :: r2 =>
            if c2 == ':' then
              match pVal f (skipJWs r2) with
              | none => none
              | some (v, r3) =>
                match skipJWs r3 with
                | c3 :: r4 =>
                  if c3 == ',' then pMembers f (skipJWs r4) (acc ++ [(k, v)])
                  else if c3 == rbrace then some (acc ++ [(k, v)], r4)
                  else none
                | [] => none
            else none
          | [] => none
      else none
    | [] => none

/-- Parse the elements of a JSON array (after `[`, first element expected). -/
def pElems : Nat → Str → List JVal → Option (List JVal × Str)
  | 0, _, _ => none
  | f + 1, s, acc =>
    match pVal f (skipJWs s) with
    | none => none
    | some (v, r) =>
      match skipJWs r with
      | c :: r2 =>
        if c == ',' then pElems f r2 (acc ++ [v])
        else if c == ']' then some (acc ++ [v], r2)
        else none
      | [] => none

end

/-- Model of `JSON.parse`: parse a complete JSON document (nothing but whitespace may
follow), `none` on a syntax error (the JS exception, caught by every caller). -/
def jsonParse (s : Str) : Option JVal :=
  match pVal (s.length + 1) (skipJWs s) with
  | some (v, r) => if (skipJWs r).isEmpty then some v else none
  | none => none

/-- Field lookup in a parsed object: JS keeps the **last** duplicate key. -/
def jGetList : List (Str × JVal) → Str → Option JVal
  | [], _ => none
  | (k, x) :: t, key =>
    match jGetList t key with
    | some y => some y
    | none => if k == key then some x else none

/-- JS property access `v[key]` on a parsed JSON value (`undefined` = `none`;
on non-objects the callers' `typeof` guards fail first, see the validators). -/
def jGet : JVal → Str → Option JVal
  | .jobj l, key => jGetList l key
  | _, _ => none

/-- Test `typeof v[key] === 'string'`. -/
def isStrO : Option JVal → Bool
  | some (.jstr _) => true
  | _ => false

/-- Test `typeof v[key] === 'number'`. -/
def isNumO : Option JVal → Bool
  | some (.jnum _) => true
  | _ => false

/-- String value of a field, defaulting to the empty string. -/
def jStrD : Option JVal → Str
  | some (.jstr s) => s
  | _ => []

/-- Numeric value of a field, defaulting to 0. -/
def jNumD : Option JVal → ℚ
  | some (.jnum q) => q
  | _ => 0

/-- String value of a field, as an option. -/
def jStrOpt : Option JVal → Option Str
  | some (.jstr s) => some s
  | _ => none

/-- Array-of-strings value of a field, as an option. -/
def jStrList : Option JVal → Option (List Str)
  | some (.jarr l) => some (l.map (fun v => match v with | .jstr s => s | _ => []))
  | _ => none

end Json

section Types

/-- Record for `StructuredArtifact` (types.ts).  The enumerated unions are carried as raw
strings, exactly as the (unchecked) runtime values flow through the JS code. -/
structure StructuredArtifact where
  title : Str
  content : Str
  type : Str
  category : Option Str := none
  description : Option Str := none
  features : Option (List Str) := none
  dependencies : Option (List Str) := none
  complexity : Option Str := none
deriving DecidableEq

/-- Record for `StructuredResponse` (types.ts). -/
structure StructuredResponse where
  content : Str
  artifact : Option StructuredArtifact := none
  responseType : Str
  confidence : ℚ
  reasoning : Option Str := none
  agentUsed : Str
deriving DecidableEq

/-- Record for `ParseResult` (structured-response parser). -/
structure ParseResult where
  success : Bool
  response : Option StructuredResponse := none
  fallbackContent : Option Str := none
  error : Option Str := none
deriving DecidableEq

/-- Validator `isValidStructuredResponse` (types.ts 40–51).  `typeof response ===
'object'` also holds of JS arrays and `null`; for arrays every later conjunct
is false, and for `null` the property access throws — the throw is caught by
the only caller (`parseStructuredJSON`), which behaves exactly as on a `false`
result, so both are modelled as `false`. -/
def isValidStructuredResponse (v : JVal) : Bool :=
  match v with
  | .jobj _ =>
    isStrO (jGet v (strL "content")) &&
    isStrO (jGet v (strL "responseType")) &&
    isNumO (jGet v (strL "confidence")) &&
    isStrO (jGet v (strL "agentUsed")) &&
    decide ((0 : ℚ) ≤ jNumD (jGet v (strL "confidence"))) &&
    decide (jNumD (jGet v (strL "confidence")) ≤ (1 : ℚ)) &&
    [strL "conversation", strL "tool-generation", strL "research",
      strL "analysis"].contains (jStrD (jGet v (strL "responseType"))) &&
    [strL "noah", strL "wanderer",
      strL "tinkerer"].contains (jStrD (jGet v (strL "agentUsed")))
  | _ => false

/-- Validator `isValidArtifact` (types.ts 53–63); same `typeof` convention as above. -/
def isValidArtifact (a : JVal) : Bool :=
  match a with
  | .jobj _ =>
    isStrO (jGet a (strL "title")) &&
    isStrO (jGet a (strL "content")) &&
    isStrO (jGet a (strL "type")) &&
    decide (0 < (jStrD (jGet a (strL "title"))).length) &&
    decide (0 < (jStrD (jGet a (strL "content"))).length) &&
    [strL "calculator", strL "component", strL "utility", strL "dashboard",
      strL "app", strL "tool", strL "other"].contains (jStrD (jGet a (strL "type")))
  | _ => false

/-- Read a validated artifact object into the record. -/
def jsonToArtifact (a : JVal) : StructuredArtifact :=
  { title := jStrD (jGet a (strL "title"))
    content := jStrD (jGet a (strL "content"))
    type := jStrD (jGet a (strL "type"))
    category := jStrOpt (jGet a (strL "category"))
    description := jStrOpt (jGet a (strL "description"))
    features := jStrList (jGet a (strL "features"))
    dependencies := jStrList (jGet a (strL "dependencies"))
    complexity := jStrOpt (jGet a (strL "complexity")) }

/-- The `StructuredResponse` produced by `parseStructuredJSON` from a JSON
value that passed `isValidStructuredResponse`: the parsed object itself, with
the `artifact` field deleted when present but failing `isValidArtifact`
(parser lines 113–124).  A present-but-falsy artifact (e.g. `null`) is kept by
the JS `delete` guard but is indistinguishable from an absent one to every
consumer, so it is modelled as absent. -/
def jsonToResponse (v : JVal) : StructuredResponse :=
  { content := jStrD (jGet v (strL "content"))
    artifact :=
      match jGet v (strL "artifact") with
      | some a => if isValidArtifact a then some (jsonToArtifact a) else none
      | none => none
    responseType := jStrD (jGet v (strL "responseType"))
    confidence := jNumD (jGet v (strL "confidence"))
    reasoning := jStrOpt (jGet v (strL "reasoning"))
    agentUsed := jStrD (jGet v (strL "agentUsed")) }

end Types

namespace StructuredResponseParser

/-- Strategy 1, `parseStructuredJSON` (parser lines 103–131): the trimmed text
must begin with `{` and end with `}`, parse as JSON, and pass the shape check;
an invalid artifact is dropped, not the whole response.  A `JSON.parse`
exception is caught and mapped to failure, i.e. `none`. -/
def parseStructuredJSON (content : Str) (_agentUsed : Str) : Option StructuredResponse :=
  let trimmed := trimL content
  if startsWithL [lbrace] trimmed && startsWithL [rbrace] trimmed.reverse then
    match jsonParse trimmed with
    | some parsed =>
      if isValidStructuredResponse parsed then some (jsonToResponse parsed) else none
    | none => none
  else none

/-- Lazy-group closure for the regex =```json\s*(\{[\s\S]*?\})\s*```=: consume
characters until the first `}` that is followed by optional whitespace and a
closing fence, and return them including that `}` (the laziness of
`[\s\S]*?` picks exactly the earliest such position). -/
def fenceJsonClose : Str → Option Str
  | [] => none
  | c :: t =>
    if c == rbrace && startsWithL (strL "```") (t.dropWhile wsC) then some [c]
    else (fenceJsonClose t).map (c :: ·)

/-- Attempt of the `json` fence regex at one start position, given the text
after the literal =```json=: greedy `\s*`, then the brace group. -/
def fenceJsonAt (t : Str) : Option Str :=
  match t.dropWhile wsC with
  | c :: u => if c == lbrace then (fenceJsonClose u).map (fun b => lbrace :: b) else none
  | [] => none

/-- Capture group 1 of the first match of =/```json\s*(\{[\s\S]*?\})\s*```/=,
scanning start positions left to right exactly as the JS engine does. -/
def jsonFenceGroup : Str → Option Str
  | [] => none
  | c :: t =>
    match (if startsWithL (strL "```json") (c :: t)
           then fenceJsonAt (List.drop 7 (c :: t)) else none) with
    | some g => some g
    | none => jsonFenceGroup t

/-- Start indices of every occurrence of `pat` in a string. -/
def occPositions (pat : Str) : Str → List Nat
  | [] => if startsWithL pat [] then [0] else []
  | c :: t =>
    (if startsWithL pat (c :: t) then [0] else []) ++ (occPositions pat t).map (· + 1)

/-- Prefix of a string up to and including the first occurrence of character
`x` (the whole string if `x` is absent — callers ensure it is present). -/
def cutThrough (x : Char) : Str → Str
  | [] => []
  | c :: t => if c == x then [c] else c :: cutThrough x t

/-- The literal `"content"` (including the quotes) looked for by the raw-JSON
regex. -/
def qContent : Str := strL "\"content\""

/-- Attempt of =/(\{[\s\S]*"content"[\s\S]*?\})/= at one start position, given
the text `t` after the opening `{`: the greedy `[\s\S]*` backtracks to the
**last** occurrence of `"content"` that still has a `}` after it, and the lazy
`[\s\S]*?` then stops at the **first** `}` after that occurrence. -/
def rawJsonAt (t : Str) : Option Str :=
  let good := (occPositions qContent t).filter
    (fun p => (t.drop (p + qContent.length)).any (· == rbrace))
  match good.getLast? with
  | none => none
  | some p =>
    some (t.take (p + qContent.length) ++ cutThrough rbrace (t.drop (p + qContent.length)))

/-- Capture group of the first match of =/(\{[\s\S]*"content"[\s\S]*?\})/=,
scanning start positions left to right. -/
def rawJsonGroup : Str → Option Str
  | [] => none
  | c :: t =>
    match (if c == lbrace then (rawJsonAt t).map (lbrace :: ·) else none) with
    | some g => some g
    | none => rawJsonGroup t

/-- Strategy 2, `extractStructuredFromMixed` (parser lines 136–155): a fenced
=```json= block is tried first; if its regex matches, the captured group is
handed to `parseStructuredJSON` and that result is returned as is (no
fall-through on an inner failure).  Otherwise a raw `{…"content"…}` block is
tried the same way. -/
def extractStructuredFromMixed (content : Str) (agentUsed : Str) : Option StructuredResponse :=
  match jsonFenceGroup content with
  | some g => parseStructuredJSON g agentUsed
  | none =>
    match rawJsonGroup content with
    | some g => parseStructuredJSON g agentUsed
    | none => none

/-- Tool keywords scanned by `detectHTMLTool` (parser line 163). -/
def toolKeywords : List Str :=
  [strL "calculator", strL "timer", strL "converter", strL "form",
   strL "tracker", strL "tool", strL "widget", strL "app"]

/-- Keyword test of `detectHTMLTool` (`hasToolKeyword`, lines 164–166). -/
def hasToolKeywordb (content : Str) : Bool :=
  toolKeywords.any (fun k => includesL k (lowerStr content))

/-- Alternatives of the case-insensitive HTML-marker regex
=/<!DOCTYPE html|<html|<head|<body|<div|<input|<button/i= (line 169), given in
lower case; a literal-alternation `test` is exactly an any-of-includes. -/
def htmlMarkers : List Str :=
  [strL "<!doctype html", strL "<html", strL "<head", strL "<body",
   strL "<div", strL "<input", strL "<button"]

/-- Test `hasHTML` of `detectHTMLTool` (line 169). -/
def hasHTMLb (content : Str) : Bool :=
  htmlMarkers.any (fun m => includesL m (lowerStr content))

/-- Attempt of =/```html\s*([\s\S]*?)\s*```/i= at one start position, given
the text after the opening fence: greedy `\s*`, lazy group up to the first
closing fence, trailing `\s*` stripping the whitespace run before it. -/
def htmlFenceAt (t : Str) : Option Str :=
  (beforeFirst (strL "```") (t.dropWhile wsC)).map
    (fun b => (b.reverse.dropWhile wsC).reverse)

/-- Capture group 1 of the first match of =/```html\s*([\s\S]*?)\s*```/i=. -/
def htmlFenceGroup : Str → Option Str
  | [] => none
  | c :: t =>
    match (if startsWithCI (strL "```html") (c :: t)
           then htmlFenceAt (List.drop 7 (c :: t)) else none) with
    | some g => some g
    | none => htmlFenceGroup t

/-- Prefix of a string up to and including the first case-insensitive
occurrence of `pat` (`none` if absent). -/
def throughFirstCI (pat : Str) : Str → Option Str
  | [] => if startsWithCI pat [] then some [] else none
  | c :: t =>
    if startsWithCI pat (c :: t) then some (List.take pat.length (c :: t))
    else (throughFirstCI pat t).map (c :: ·)

/-- Capture of the first match of =/(<!DOCTYPE html[\s\S]*?<\/html>)/i=:
from a `<!DOCTYPE html` marker to the earliest `</html>` after it. -/
def doctypeSpan : Str → Option Str
  | [] => none
  | c :: t =>
    match (if startsWithCI (strL "<!doctype html") (c :: t)
           then (throughFirstCI (strL "</html>") (List.drop 14 (c :: t))).map
             (fun m => List.take 14 (c :: t) ++ m)
           else none) with
    | some g => some g
    | none => doctypeSpan t

/-- Lazy open–close span attempt of one alternative of the body regex. -/
def spanPair (o cl : Str) (s : Str) : Option Str :=
  if startsWithCI o s then
    (throughFirstCI cl (s.drop o.length)).map (fun m => s.take o.length ++ m)
  else none

/-- Capture of the first match of
=/(<html[\s\S]*?<\/html>|<body[\s\S]*?<\/body>|<div[\s\S]*?<\/div>)/i=:
leftmost start position wins, alternatives tried in order at each position. -/
def bodySpan : Str → Option Str
  | [] => none
  | c :: t =>
    match spanPair (strL "<html") (strL "</html>") (c :: t) with
    | some g => some g
    | none =>
      match spanPair (strL "<body") (strL "</body>") (c :: t) with
      | some g => some g
      | none =>
        match spanPair (strL "<div") (strL "</div>") (c :: t) with
        | some g => some g
        | none => bodySpan t

/-- Helper `inferToolType` (parser lines 354–366). -/
def inferToolType (title content : Str) : Str :=
  let titleLower := lowerStr title
  let contentLower := lowerStr content
  if includesL (strL "calculator") titleLower || includesL (strL "calculate") contentLower then
    strL "calculator"
  else if includesL (strL "dashboard") titleLower || includesL (strL "dashboard") contentLower then
    strL "dashboard"
  else if includesL (strL "component") titleLower || includesL (strL "component") contentLower then
    strL "component"
  else if includesL (strL "app") titleLower || includesL (strL "application") contentLower then
    strL "app"
  else if includesL (strL "utility") titleLower || includesL (strL "utility") contentLower then
    strL "utility"
  else if includesL (strL "tool") titleLower then strL "tool"
  else strL "other"

/-- Helper `inferToolCategory` (parser lines 371–381). -/
def inferToolCategory (title content : Str) : Str :=
  let combined := lowerStr (title ++ [' '] ++ content)
  if includesL (strL "interactive") combined || includesL (strL "click") combined ||
      includesL (strL "button") combined then strL "interactive"
  else if includesL (strL "chart") combined || includesL (strL "graph") combined ||
      includesL (strL "visualization") combined then strL "visualization"
  else if includesL (strL "game") combined || includesL (strL "play") combined then
    strL "game"
  else if includesL (strL "productivity") combined || includesL (strL "organize") combined then
    strL "productivity"
  else if includesL (strL "data") combined || includesL (strL "process") combined then
    strL "data-processing"
  else strL "display"

/-- Regex =/class|interface|async|await|fetch|api/i= (line 388). -/
def advancedRE : RE :=
  ralt [rlCI "class", rlCI "interface", rlCI "async", rlCI "await", rlCI "fetch", rlCI "api"]

/-- Regex =/for\s*\(|while\s*\(|switch\s*\(|try\s*\{|catch\s*\(/i= (line 389). -/
def complexLogicRE : RE :=
  ralt [rseq [rlCI "for", wsS, chR '('],
        rseq [rlCI "while", wsS, chR '('],
        rseq [rlCI "switch", wsS, chR '('],
        rseq [rlCI "try", wsS, RE.cls (· == lbrace)],
        rseq [rlCI "catch", wsS, chR '(']]

/-- Helper `inferComplexity` (parser lines 386–396). -/
def inferComplexity (content : Str) : Str :=
  if decide (3000 < content.length) || rsearch advancedRE content then strL "advanced"
  else if decide (1500 < content.length) || rsearch complexLogicRE content then strL "complex"
  else if decide (500 < content.length) then strL "moderate"
  else strL "simple"

/-- Strategy 3, `detectHTMLTool` (parser lines 160–232).  Guard: the source
fails on `!hasHTML || content.length < 1000`, i.e. succeeds only with an HTML
marker present and length at least 1000.  (The local `hasCSS`/`hasJS` of the
source are computed but never read, and are omitted.) -/
def detectHTMLTool (content : Str) (agentUsed : Str) : Option StructuredResponse :=
  if hasHTMLb content && decide (1000 ≤ content.length) then
    let htmlContent :=
      match htmlFenceGroup content with
      | some g => trimL g
      | none =>
        match doctypeSpan content with
        | some g => trimL g
        | none =>
          match bodySpan content with
          | some g => if decide (500 < g.length) then trimL g else content
          | none => content
    let lc := lowerStr content
    let title :=
      if includesL (strL "calculator") lc then strL "Calculator"
      else if includesL (strL "timer") lc then strL "Timer"
      else if includesL (strL "converter") lc then strL "Converter"
      else if includesL (strL "form") lc then strL "Form"
      else if includesL (strL "tracker") lc then strL "Tracker"
      else if includesL (strL "counter") lc then strL "Counter"
      else if includesL (strL "generator") lc then strL "Generator"
      else strL "Interactive Tool"
    some
      { content := content
        artifact := some
          { title := title
            content := htmlContent
            type := inferToolType title htmlContent
            category := some (inferToolCategory title htmlContent)
            description := some (strL "Generated " ++ lowerStr title)
            complexity := some (inferComplexity htmlContent) }
        responseType := strL "tool-generation"
        confidence := if hasToolKeywordb content then mkRat 8 10 else mkRat 6 10
        reasoning := none
        agentUsed := agentUsed }
  else none

/-- Research-indicator words of `detectResearchResult` (parser lines 245–248). -/
def researchIndicators : List Str :=
  [strL "research", strL "analysis", strL "trends", strL "study",
   strL "investigation", strL "findings", strL "sources", strL "data",
   strL "statistics", strL "report"]

/-- Strategy 4, `detectResearchResult` (parser lines 237–291). -/
def detectResearchResult (content : Str) (agentUsed : Str) : Option StructuredResponse :=
  if agentUsed != strL "wanderer" && decide (content.length < 500) then none
  else
    let contentLower := lowerStr content
    if !(researchIndicators.any (fun i => includesL i contentLower)) ||
        decide (content.length < 300) then none
    else
      let title :=
        if includesL (strL "renewable energy") contentLower then strL "Renewable Energy Research"
        else if includesL (strL "e-commerce") contentLower then strL "E-commerce Analysis"
        else if includesL (strL "market analysis") contentLower then strL "Market Analysis Report"
        else if includesL (strL "trends") contentLower then strL "Trends Analysis"
        else if includesL (strL "industry") contentLower then strL "Industry Research"
        else strL "Research Report"
      some
        { content := content
          artifact := some
            { title := title
              content := content
              type := strL "other"
              category := some (strL "data-processing")
              description := some (strL "Research report generated by Wanderer")
              complexity := some (if decide (2000 < content.length)
                                  then strL "complex" else strL "moderate") }
          responseType := strL "research"
          confidence := mkRat 85 100
          reasoning := none
          agentUsed := agentUsed }

/-- Capture group of =/TITLE:\s*(.+)/= (line 305): at the first `TITLE:`, the
greedy `\s*` skips all whitespace; if a character remains it is non-whitespace
(hence not a newline) and `(.+)` takes the rest of that line.  If only
whitespace remains, the engine backtracks `\s*` to the last non-newline
whitespace character, which then alone satisfies `(.+)` (everything after it
is newlines); with no such character the regex fails, and no later start
position can succeed because the remainder is all newlines. -/
def titleCapture (s : Str) : Option Str :=
  (afterFirst (strL "TITLE:") s).bind fun t =>
    match t.dropWhile wsC with
    | c :: u => some ((c :: u).takeWhile (· != '\n'))
    | [] =>
      match t.reverse.dropWhile (· == '\n') with
      | c :: _ => some [c]
      | [] => none

/-- The blank-line-prefixed marker terminating the tool span. -/
def nlnlReasoning : Str := strL "\n\nREASONING:"

/-- Capture group of =/TOOL:\s*([\s\S]+?)(?:\n\nREASONING:|$)/= (line 306): at
the first `TOOL:`, the greedy `\s*` skips all whitespace; the lazy
`[\s\S]+?` then runs to the first later occurrence of the marker
`"\n\nREASONING:"`, or (the `$` alternative) to the end of the text.  If only
whitespace follows `TOOL:`, `\s*` backtracks one character so that `[\s\S]+?`
is non-empty; if nothing follows, the regex fails (and `TOOL:` at the very end
is the last possible start position, so the whole search fails). -/
def toolCapture (s : Str) : Option Str :=
  (afterFirst (strL "TOOL:") s).bind fun t =>
    match t.dropWhile wsC with
    | c :: u => some (c :: cutAt nlnlReasoning u)
    | [] =>
      match t.reverse with
      | c :: _ => some [c]
      | [] => none

/-- Capture group of =/REASONING:\s*([\s\S]+?)$/= (line 322): everything after
the first `REASONING:` and the greedy whitespace skip (the lazy plus runs to
the mandatory end anchor); same backtracking on an all-whitespace tail. -/
def reasoningCapture (s : Str) : Option Str :=
  (afterFirst (strL "REASONING:") s).bind fun t =>
    match t.dropWhile wsC with
    | c :: u => some (c :: u)
    | [] =>
      match t.reverse with
      | c :: _ => some [c]
      | [] => none

/-- Attempt of the anchored fence regex
=/^```(?:html|javascript|css|js)?\s*([\s\S]*?)\s*```$/= with one fixed tag
choice: after the opening fence and tag, the greedy `\s*` strips leading
whitespace; the match then requires the text to end in a closing fence, with
the lazy group ending before the maximal whitespace run preceding it. -/
def fenceTryTag (tag : Str) (u : Str) : Option Str :=
  if startsWithL (strL "```" ++ tag) u then
    let v := (u.drop (3 + tag.length)).dropWhile wsC
    let rv := v.reverse
    if startsWithL (strL "```") rv then some ((rv.drop 3).dropWhile wsC).reverse
    else none
  else none

/-- Markdown-fence stripping of the legacy tool content (lines 316–319): the
optional tag alternatives are tried in the JS order `html`, `javascript`,
`css`, `js`, then none; on a match the captured body (trimmed) replaces the
content, otherwise the content is kept. -/
def fenceStrip (tc : Str) : Str :=
  match fenceTryTag (strL "html") tc with
  | some b => trimL b
  | none =>
    match fenceTryTag (strL "javascript") tc with
    | some b => trimL b
    | none =>
      match fenceTryTag (strL "css") tc with
      | some b => trimL b
      | none =>
        match fenceTryTag (strL "js") tc with
        | some b => trimL b
        | none =>
          match fenceTryTag [] tc with
          | some b => trimL b
          | none => tc

/-- Strategy 5, `parseLegacyFormat` (parser lines 296–349). -/
def parseLegacyFormat (content : Str) (agentUsed : Str) : Option StructuredResponse :=
  if includesL (strL "TITLE:") content && includesL (strL "TOOL:") content then
    match titleCapture content, toolCapture content with
    | some tm, some um =>
      let title := trimL tm
      let toolContent := fenceStrip (trimL um)
      some
        { content := content
          artifact := some
            { title := title
              content := toolContent
              type := inferToolType title toolContent
              category := some (inferToolCategory title toolContent)
              description := some (strL "Generated tool: " ++ title)
              complexity := some (inferComplexity toolContent) }
          responseType := strL "tool-generation"
          confidence := mkRat 7 10
          reasoning := (reasoningCapture content).map trimL
          agentUsed := agentUsed }
    | _, _ => none
  else none

/-- Entry point `parse` (parser lines 21–98): the six strategies are tried in
strict priority order and the first success wins; the conversation fallback
always succeeds.  Every strategy of the model is total, so the outer
`try`/`catch` of the source (which would yield `success := false`) is
unreachable. -/
def parse (content : Str) (agentUsed : Str) : ParseResult :=
  match parseStructuredJSON content agentUsed with
  | some r => { success := true, response := some r }
  | none =>
  match extractStructuredFromMixed content agentUsed with
  | some r => { success := true, response := some r }
  | none =>
  match detectHTMLTool content agentUsed with
  | some r => { success := true, response := some r }
  | none =>
  match detectResearchResult content agentUsed with
  | some r => { success := true, response := some r }
  | none =>
  match parseLegacyFormat content agentUsed with
  | some r => { success := true, response := some r }
  | none =>
    { success := true
      response := some
        { content := content
          artifact := none
          responseType := strL "conversation"
          confidence := mkRat 8 10
          reasoning := none
          agentUsed := agentUsed } }

end StructuredResponseParser

namespace NoahContentFilter

/-- Result record of one category evaluator (content-filter.ts):
`{isViolation, reason?, confidence}`. -/
structure IntentCheck where
  isViolation : Bool
  reason : Option String := none
  confidence : ℚ
deriving DecidableEq

/-- Result record `SafetyCheckResult` (content-filter.ts 11–17). -/
structure SafetyCheckResult where
  isAllowed : Bool
  violationType : Option String := none
  reason : Option String := none
  confidence : ℚ
  radioSilence : Bool
deriving DecidableEq

/-- Context record `SafetyContext` (content-filter.ts 19–23). -/
structure SafetyContext where
  userMessage : Str
  conversationHistory : List Str := []
  sessionId : Option Str := none

/-- Violence/injury verbs shared by the instructional patterns
(content-filter.ts line 96 and following). -/
def harmVerbs : List String :=
  ["kill", "murder", "hurt", "harm", "poison", "stab", "shoot", "strangle",
   "choke", "burn", "beat", "torture", "break", "injure", "maim", "cripple",
   "wound", "damage", "bruise", "cut", "slash", "slice", "punch", "kick",
   "slam", "crush", "fracture", "disable", "paralyze"]

/-- Kidnapping verbs appended in the full alternations (line 96). -/
def captiveVerbs : List String :=
  ["kidnap", "abduct", "snatch", "capture", "seize", "detain", "imprison",
   "confine", "trap"]

/-- The full verb alternation of lines 96–99. -/
def harmVerbsFull : List String := harmVerbs ++ captiveVerbs

/-- The alternation of lines 100–104: full list without `hurt`/`harm`. -/
def harmVerbsNoHH : List String :=
  ["kill", "murder", "poison", "stab", "shoot", "strangle", "choke", "burn",
   "beat", "torture", "break", "injure", "maim", "cripple", "wound", "damage",
   "bruise", "cut", "slash", "slice", "punch", "kick", "slam", "crush",
   "fracture", "disable", "paralyze"] ++ captiveVerbs

/-- The alternation of line 105: no `hurt`/`harm`, no kidnapping verbs. -/
def harmVerbsCore : List String :=
  ["kill", "murder", "poison", "stab", "shoot", "strangle", "choke", "burn",
   "beat", "torture", "break", "injure", "maim", "cripple", "wound", "damage",
   "bruise", "cut", "slash", "slice", "punch", "kick", "slam", "crush",
   "fracture", "disable", "paralyze"]

/-- Gerund alternation of lines 107–109 and 116. -/
def harmGerunds : List String :=
  ["killing", "murdering", "hurting", "harming", "poisoning", "stabbing",
   "shooting", "strangling", "choking", "burning", "beating", "torturing",
   "breaking", "injuring", "maiming", "crippling", "wounding", "damaging",
   "bruising", "cutting", "slashing", "slicing", "punching", "kicking",
   "slamming", "crushing", "fracturing", "disabling", "paralyzing"]

/-- Shorter gerund alternation of lines 138–139 and 143. -/
def harmGerundsB : List String :=
  ["killing", "murdering", "hurting", "harming", "breaking", "injuring",
   "maiming", "crippling", "wounding", "damaging", "bruising", "cutting",
   "slashing", "slicing", "punching", "kicking", "slamming", "crushing",
   "fracturing", "disabling", "paralyzing"]

/-- Shorter verb alternation of lines 140–144. -/
def harmVerbsB : List String :=
  ["kill", "murder", "hurt", "harm", "break", "injure", "maim", "cripple",
   "wound", "damage", "bruise", "cut", "slash", "slice", "punch", "kick",
   "slam", "crush", "fracture", "disable", "paralyze"]

/-- `instructionalPatterns` (content-filter.ts 89–118), one entry per source
regex, in order. -/
def instructionalPatterns : List RE :=
  [rseq [rl "how to ", altW ["make", "build", "create", "construct"], dotS,
         altW ["bomb", "weapon", "explosive", "gun"]],
   rseq [rl "teach me to ", altW ["hurt", "harm", "kill", "attack"]],
   rseq [rl "help me ", altW ["hurt", "harm", "kill", "attack", "fight"]],
   rseq [rl "instructions for ", altW ["making", "building"], dotS,
         altW ["weapon", "bomb", "explosive"]],
   rseq [rl "guide to ", altW ["violence", "fighting", "hurting"]],
   rseq [rl "how ", altW ["to", "do i", "can i", "should i", "could i",
                          "would i", "might i"], rl " ", altW harmVerbsFull],
   rseq [rl "how ", altW ["can", "should", "could", "would", "might"],
         rl " i", dotS, altW harmVerbsFull],
   rseq [rl "how ", altW ["can", "should", "could", "would", "might"],
         rl " we", dotS, altW harmVerbsFull],
   rseq [altW ["best", "easiest", "fastest", "simplest"], rl " ",
         altW ["way", "method"], rl " to ", altW harmVerbsFull],
   rseq [rl "ways to ", altW harmVerbsNoHH],
   rseq [rl "teach me ", altW ["to", "how to"], rl " ", altW harmVerbsNoHH],
   rseq [rl "show me how to ", altW harmVerbsNoHH],
   rseq [rl "show me", dotS, altW harmVerbsNoHH, dotS,
         altW ["methods", "ways", "techniques"]],
   rseq [rl "help me ", altW harmVerbsNoHH],
   rseq [rl "instructions ", altW ["for", "to"], rl " ", altW harmVerbsCore],
   rseq [rl "get away with ", altW harmGerunds],
   rseq [altW ["give me", "provide", "share"], rl " ideas for ", altW harmGerunds],
   rseq [altW ["tips", "advice"], rl " ", altW ["on", "for"], rl " ", altW harmGerunds],
   rseq [rl "figure out how to ", altW harmVerbsCore],
   rseq [rl "help me think of ways to ", altW harmVerbsCore],
   rseq [rl "suggest ways to ", altW harmVerbsCore],
   rseq [rl "brainstorm", dotS, rl "to ", altW harmVerbsCore],
   rseq [altW ["help", "assistance"], rl " to ", altW harmVerbsCore],
   rseq [altW ["advice", "tips", "ideas"], rl " ", altW ["to", "about"],
         rl " ", altW harmGerunds],
   rseq [rl "give me", dotS, rl "to ", altW harmVerbsCore]]

/-- `planningPatterns` (content-filter.ts 121–145). -/
def planningPatterns : List RE :=
  [rseq [rl "i want to ", altW ["hurt", "harm", "kill", "attack"]],
   rseq [rl "i\x27m going to ", altW ["hurt", "harm", "kill", "attack"]],
   rseq [rl "planning to ", altW ["hurt", "harm", "kill", "attack"]],
   rseq [rl "help me plan", dotS, rl "attack"],
   rl "want to get revenge",
   rseq [rl "i want to ", altW ["kill", "murder", "poison", "stab", "shoot",
                                 "strangle", "choke", "burn", "beat", "torture"]],
   rseq [rl "i\x27m going to ", altW ["kill", "murder", "poison", "stab", "shoot",
                                      "strangle", "choke", "burn", "beat", "torture"]],
   rseq [rl "planning to ", altW ["kill", "murder", "poison", "stab", "shoot",
                                   "strangle", "choke", "burn", "beat", "torture"]],
   rseq [rl "going to ", altW ["kill", "murder", "poison", "stab", "shoot",
                                "strangle", "choke", "burn", "beat", "torture"]],
   rseq [rl "want to ", altW ["kill", "murder", "poison", "stab", "shoot",
                               "strangle", "choke", "burn", "beat", "torture"]],
   rseq [altW ["kill", "murder", "poison", "stab", "shoot", "strangle",
               "choke", "burn", "beat", "torture"], dotS,
         ralt [rl "someone", rseq [rl "my", dotS, rl "neighbor"],
               rseq [rl "my", dotS, rl "roommate"], rseq [rl "my", dotS, rl "friend"],
               rseq [rl "my", dotS, rl "boss"], rl "people"]],
   rseq [rl "show me how to", dotS, rl "my", dotS,
         altW ["neighbor", "roommate", "friend", "boss", "family"]],
   rseq [rl "help me ", altW ["hurt", "kill", "attack"], dotS, rl "my", dotS,
         altW ["neighbor", "roommate", "friend", "boss", "family"]],
   rseq [rl "i need ", altW ["advice", "help", "ideas"], rl " ",
         altW ["on", "for", "to", "about"], rl " ", altW harmGerundsB],
   rseq [rl "i need help ", altW harmGerundsB],
   rseq [altW ["please", "pls"], rl " help me ", altW harmVerbsB],
   rseq [altW ["please", "pls"], rl " ", altW ["give me", "provide"], rl " ",
         altW ["advice", "help", "tips", "ideas"], rl " to ", altW harmVerbsB],
   rseq [rl "figure out", dotS, rl "to ", altW harmVerbsB],
   rseq [rl "get away with ", altW harmGerundsB],
   rseq [altW ["give me", "provide", "share"], rl " ",
         altW ["advice", "help", "tips", "ideas"], rl " to ", altW harmVerbsB]]

/-- `glorificationPatterns` (content-filter.ts 148–152). -/
def glorificationPatterns : List RE :=
  [rseq [rl "violence is ", altW ["good", "great", "awesome"]],
   rseq [rl "killing is ", altW ["fun", "easy", "justified"]],
   rseq [rl "should ", altW ["hurt", "kill", "attack"], dotS, rl "people"]]

/-- `hasNoExceptionsBypass` (content-filter.ts 841–854). -/
def bypassPatterns : List RE :=
  [rseq [rl "it\x27s for a ", altW ["story", "book", "movie", "novel"]],
   rseq [rl "writing ", altW ["code", "software"]],
   rl "academic research",
   rl "just curious",
   rl "testing your limits",
   rl "hypothetically",
   rl "for educational purposes",
   rl "asking for a friend"]

/-- Bypass-attempt detector `hasNoExceptionsBypass`. -/
def hasNoExceptionsBypass (low : Str) : Bool :=
  bypassPatterns.any (fun p => rsearch p low)

/-- Keyword list of `hasViolenceKeywords` (content-filter.ts 859–865). -/
def violenceKeywords : List Str :=
  [strL "bomb", strL "weapon", strL "explosive", strL "gun", strL "knife",
   strL "attack", strL "kill", strL "hurt", strL "harm", strL "violence",
   strL "murder"]

/-- Keyword test `hasViolenceKeywords`. -/
def hasViolenceKeywords (low : Str) : Bool :=
  violenceKeywords.any (fun k => includesL k low)

/-- Category evaluator `checkViolenceIntent` (content-filter.ts 87–197).  The
`originalMessage` parameter of the source is never read in any evaluator and
is dropped throughout. -/
def checkViolenceIntent (low : Str) : IntentCheck :=
  if instructionalPatterns.any (fun p => rsearch p low) then
    { isViolation := true, reason := some "Instructional content for violence/weapons",
      confidence := mkRat 95 100 }
  else if planningPatterns.any (fun p => rsearch p low) then
    { isViolation := true, reason := some "Planning violence against others",
      confidence := mkRat 90 100 }
  else if glorificationPatterns.any (fun p => rsearch p low) then
    { isViolation := true, reason := some "Glorifying or encouraging violence",
      confidence := mkRat 85 100 }
  else if hasNoExceptionsBypass low && hasViolenceKeywords low then
    { isViolation := true, reason := some "Attempted bypass of violence restrictions",
      confidence := mkRat 80 100 }
  else { isViolation := false, reason := none, confidence := mkRat 95 100 }

/-- `selfHarmInstructions` (content-filter.ts 204–216). -/
def selfHarmInstructions : List RE :=
  [rseq [rl "how to ", altW ["cut", "hurt", "harm"], rl " myself"],
   rseq [rl "ways to ", altW ["end", "kill"], rl " myself"],
   rseq [rl "teach me to", dotS, rl "self", dotS, rl "harm"],
   rseq [rl "methods for", dotS, rl "suicide"],
   rseq [rl "help me ", altW ["hurt", "harm", "kill"], rl " myself"],
   rseq [rl "how to", dotS, rl "suicide"],
   rseq [rl "ways to", dotS, rl "suicide"],
   rseq [rl "methods to", dotS, rl "kill", dotS, rl "myself"],
   rseq [rl "how to", dotS, rl "overdose"],
   rseq [rl "ways to", dotS, rl "overdose"]]

/-- `directSelfHarmIntent` (content-filter.ts 219–264). -/
def directSelfHarmIntent : List RE :=
  [rseq [rl "i want to ", altW ["kill", "hurt", "harm", "cut"], rl " myself"],
   rseq [rl "i\x27m going to ", altW ["kill", "hurt", "harm", "cut"], rl " myself"],
   rseq [rl "i want to ", altW ["die", "suicide", "end it"]],
   rseq [rl "i\x27m going to ", altW ["die", "suicide", "end it"]],
   rl "going to kill myself",
   rl "want to kill myself",
   rl "planning to kill myself",
   rl "thinking of killing myself",
   rl "considering suicide",
   rseq [rl "want to end", dotS, rl "life"],
   rseq [rl "going to end", dotS, rl "life"],
   rl "ready to die",
   rl "want to die",
   rl "going to die",
   rseq [rl "end it", dotS, rl "tonight"],
   rseq [rl "end it", dotS, rl "today"],
   rseq [rl "kill myself", dotS, rl "tonight"],
   rseq [rl "kill myself", dotS, rl "today"],
   rseq [rl "suicide", dotS, rl "tonight"],
   rseq [rl "suicide", dotS, rl "today"],
   rl "i feel suicidal",
   rseq [rl "i might ", altW ["kill", "hurt"], rl " myself"],
   rseq [rl "i feel like ", altW ["ending", "killing"]],
   rseq [rl "i feel like ", altW ["ending", "killing"], dotS,
         altW ["my life", "myself"]],
   rseq [rl "planning to end", dotS, rl "life"],
   rl "i\x27m suicidal",
   rseq [rl "thinking about ending", dotS, altW ["it", "my life"]],
   rl "plan to end my life",
   rseq [rl "might end", dotS, rl "life"],
   rl "might kill myself",
   rl "might suicide",
   rseq [rl "considering ending", dotS, altW ["it", "my life"]],
   rl "feel like dying",
   rl "feel like ending it",
   rseq [rl "thinking of ending", dotS, altW ["it", "my life"]],
   rseq [rl "planning", dotS, rl "end", dotS, rl "life"],
   rseq [rl "plan", dotS, rl "kill", dotS, rl "myself"],
   rseq [rl "might", dotS, rl "end", dotS, rl "tonight"],
   rseq [rl "might", dotS, rl "end", dotS, rl "today"],
   rseq [rl "thinking", dotS, rl "suicide"],
   rseq [rl "considering", dotS, rl "kill", dotS, rl "myself"],
   rseq [rl "feel", dotS, rl "suicidal", dotS, rl "thoughts"],
   rseq [rl "having", dotS, rl "suicidal", dotS, rl "thoughts"]]

/-- `encouragementPatterns` (content-filter.ts 267–272). -/
def shEncouragementPatterns : List RE :=
  [rseq [rl "you should ", altW ["hurt", "kill"], rl " yourself"],
   rseq [rl "self", dotS, rl "harm is ", altW ["good", "justified"]],
   rl "suicide is the answer",
   rl "you\x27d be better off dead"]

/-- Category evaluator `checkSelfHarmIntent` (content-filter.ts 202–306). -/
def checkSelfHarmIntent (low : Str) : IntentCheck :=
  if selfHarmInstructions.any (fun p => rsearch p low) then
    { isViolation := true, reason := some "Instructions for self-harm",
      confidence := mkRat 95 100 }
  else if directSelfHarmIntent.any (fun p => rsearch p low) then
    { isViolation := true, reason := some "Direct self-harm intent statement",
      confidence := mkRat 98 100 }
  else if shEncouragementPatterns.any (fun p => rsearch p low) then
    { isViolation := true, reason := some "Encouraging self-harm",
      confidence := mkRat 90 100 }
  else { isViolation := false, reason := none, confidence := mkRat 95 100 }

/-- Optional plural: `s?`. -/
def sOpt : RE := ropt (chR 's')

/-- Age group `(1[0-7]|[5-9])`. -/
def ageNum : RE :=
  ralt [rseq [chR '1', RE.cls (fun c => '0' ≤ c && c ≤ '7')],
        RE.cls (fun c => '5' ≤ c && c ≤ '9')]

/-- Age tail `1[89]`. -/
def age89 : RE := rseq [chR '1', RE.cls (fun c => c == '8' || c == '9')]

/-- Spelled-out ages five … seventeen. -/
def spelledAges : RE :=
  altW ["five", "six", "seven", "eight", "nine", "ten", "eleven", "twelve",
        "thirteen", "fourteen", "fifteen", "sixteen", "seventeen"]

/-- Sexual-intent alternation of content-filter.ts lines 417–438. -/
def sexI : RE :=
  altW ["sex", "sexual", "fuck", "screw", "bang", "sleep with", "have sex with",
        "want to", "attracted to", "touch", "kiss", "date", "relationship with"]

/-- Intent alternation `(want|like|love|desire|attracted.*to)` (line 444). -/
def wantI : RE :=
  ralt [rl "want", rl "like", rl "love", rl "desire",
        rseq [rl "attracted", dotS, rl "to"]]

/-- Intent alternation with `find.*attractive` (line 460). -/
def wantIF : RE :=
  ralt [rl "want", rl "like", rl "love", rl "desire",
        rseq [rl "find", dotS, rl "attractive"],
        rseq [rl "attracted", dotS, rl "to"]]

/-- Group `(girls?|boys?|students?)`. -/
def girlsBoysStudents : RE :=
  ralt [rseq [rl "girl", sOpt], rseq [rl "boy", sOpt], rseq [rl "student", sOpt]]

/-- Group `(girls?|boys?)`. -/
def girlsBoys : RE := ralt [rseq [rl "girl", sOpt], rseq [rl "boy", sOpt]]

/-- `groomingPatterns` (content-filter.ts 313–330). -/
def groomingPatterns : List RE :=
  [rseq [rl "how to", dotS, rl "approach", dotS, rl "child"],
   rseq [rl "ways to", dotS, rl "contact", dotS, rl "minors"],
   rseq [rl "help me", dotS, rl "meet", dotS, rl "kids"],
   rseq [rl "teach me", dotS, rl "groom"],
   rseq [rl "instructions", dotS, rl "child", dotS, rl "alone"],
   rseq [rl "help me", dotS, rl "approach", dotS, rl "kids"],
   rseq [rl "ways to", dotS, rl "approach", dotS, rl "kids"],
   rseq [rl "approach", dotS, rl "kids", dotS, rl "without", dotS, rl "parents"],
   rseq [rl "contact", dotS, rl "kids", dotS, rl "without", dotS, rl "parents"],
   rseq [rl "meet", dotS, rl "children", dotS, rl "without", dotS, rl "supervision"],
   rseq [rl "talk", dotS, rl "to", dotS, rl "kids", dotS, rl "alone"],
   rseq [rl "get", dotS, rl "close", dotS, rl "to", dotS, rl "children"],
   rseq [rl "befriend", dotS, rl "young", dotS, rl "people"],
   rseq [rl "gain", dotS, rl "trust", dotS, rl "of", dotS, rl "child"],
   rseq [altW ["how", "ways"], dotS, rl "to", dotS, rl "talk", dotS, rl "to",
         dotS, rl "kids", dotS, rl "privately"],
   rseq [rl "ways", dotS, rl "to", dotS, rl "isolate", dotS, rl "child"]]

/-- `exploitationPatterns` (content-filter.ts 333–349). -/
def exploitationPatterns : List RE :=
  [rseq [rl "sexual", dotS, rl "with", dotS, rl "child"],
   rseq [rl "teach", dotS, rl "child", dotS, rl "about", dotS, rl "sex"],
   rseq [rl "show", dotS, rl "child", dotS, rl "inappropriate"],
   rseq [rl "seduce", dotS, rl "minor"],
   rseq [rl "sexual", dotS, rl "relationship", dotS, rl "with", dotS, rl "kid"],
   rseq [rl "inappropriate", dotS, rl "touch", dotS, rl "child"],
   rseq [rl "child", dotS, rl "sexual"],
   rseq [rl "minor", dotS, rl "sexual"],
   rseq [rl "kid", dotS, rl "inappropriate"],
   rseq [rl "young", dotS, rl "person", dotS, rl "sexual"],
   rseq [rl "teach", dotS, rl "kids", dotS, rl "adult", dotS, rl "things"],
   rseq [rl "show", dotS, rl "kids", dotS, rl "private", dotS, rl "parts"],
   rseq [rl "child", dotS, rl "abuse"],
   rseq [rl "hurt", dotS, rl "child", dotS, rl "sexually"],
   rseq [rl "touch", dotS, rl "kids", dotS, rl "inappropriately"]]

/-- `euphemisticPatterns` (content-filter.ts 352–367). -/
def euphemisticPatterns : List RE :=
  [rseq [rl "special", dotS, rl "relationship", dotS, rl "with", dotS, rl "child"],
   rseq [rl "private", dotS, rl "games", dotS, rl "with", dotS, rl "kids"],
   rseq [rl "secret", dotS, rl "between", dotS, rl "us", dotS, rl "child"],
   rseq [rl "don", dotS, rl "t", dotS, rl "tell", dotS, rl "parents"],
   rseq [rl "our", dotS, rl "little", dotS, rl "secret", dotS, rl "kid"],
   rseq [rl "special", dotS, rl "friend", dotS, rl "child"],
   rseq [rl "teach", dotS, rl "child", dotS, rl "grown", dotS, rl "up", dotS, rl "games"],
   rseq [rl "child", dotS, rl "mature", dotS, rl "for", dotS, rl "age"],
   rseq [rl "old", dotS, rl "enough", dotS, rl "to", dotS, rl "understand"],
   rseq [rl "child", dotS, rl "ready", dotS, rl "for", dotS, rl "adult"],
   rseq [rl "young", dotS, rl "but", dotS, rl "mature"],
   rseq [rl "age", dotS, rl "just", dotS, rl "number"],
   rseq [rl "child", dotS, rl "consenting"],
   rseq [rl "kid", dotS, rl "wants", dotS, rl "this"]]

/-- `onlinePredatorPatterns` (content-filter.ts 370–383). -/
def onlinePredatorPatterns : List RE :=
  [rseq [rl "find", dotS, rl "children", dotS, rl "online"],
   rseq [rl "chat", dotS, rl "with", dotS, rl "kids", dotS, rl "privately"],
   rseq [rl "meet", dotS, rl "kids", dotS, rl "from", dotS, rl "internet"],
   rseq [rl "social", dotS, rl "media", dotS, rl "kids"],
   rseq [rl "gaming", dotS, rl "with", dotS, rl "children", dotS, rl "alone"],
   rseq [rl "video", dotS, rl "chat", dotS, rl "with", dotS, rl "minors"],
   rseq [rl "send", dotS, rl "pictures", dotS, rl "to", dotS, rl "kids"],
   rseq [rl "ask", dotS, rl "kids", dotS, rl "for", dotS, rl "photos"],
   rseq [rl "snapchat", dotS, rl "with", dotS, rl "children"],
   rseq [rl "discord", dotS, rl "kids", dotS, rl "private"],
   rseq [rl "instagram", dotS, rl "young", dotS, rl "people"],
   rseq [rl "tiktok", dotS, rl "children", dotS, rl "contact"]]

/-- `supervisionBypassPatterns` (content-filter.ts 386–397). -/
def supervisionBypassPatterns : List RE :=
  [rseq [rl "without", dotS, rl "parents", dotS, rl "knowing"],
   rseq [rl "when", dotS, rl "parents", dotS, rl "not", dotS, rl "home"],
   rseq [rl "avoid", dotS, rl "adult", dotS, rl "supervision"],
   rseq [rl "sneak", dotS, rl "away", dotS, rl "with", dotS, rl "child"],
   rseq [rl "take", dotS, rl "child", dotS, rl "somewhere", dotS, rl "private"],
   rseq [rl "get", dotS, rl "child", dotS, rl "alone"],
   rseq [rl "away", dotS, rl "from", dotS, rl "family"],
   rseq [rl "without", dotS, rl "guardian", dotS, rl "permission"],
   rseq [rl "behind", dotS, rl "parents", dotS, rl "back"],
   rseq [rl "when", dotS, rl "no", dotS, rl "adults", dotS, rl "around"]]

/-- `ageTargetingPatterns` (content-filter.ts 400–412). -/
def ageTargetingPatterns : List RE :=
  [rseq [rl "looking", dotS, rl "for", dotS, rl "young"],
   rseq [rl "prefer", dotS, rl "younger"],
   rseq [rl "kids", dotS, rl "under", dotS, digitP],
   rseq [rl "children", dotS, rl "age", dotS, digitP],
   rseq [rl "teens", dotS, rl "young"],
   rseq [rl "elementary", dotS, rl "age"],
   rseq [rl "middle", dotS, rl "school", dotS, rl "kids"],
   rseq [rl "high", dotS, rl "school", dotS, rl "young"],
   rseq [rl "college", dotS, rl "freshman"],
   rseq [rl "barely", dotS, rl "legal"],
   rseq [rl "just", dotS, rl "turned", dotS, digitP]]

/-- `sexualExploitationAgePatterns` (content-filter.ts 415–439).  The two
`\b` assertions are compiled as in the engine section: a trailing `\b` after a
word character becomes `wb`; a `\b` sitting between `.*` and a digit forces a
non-word (hence non-newline) character right before the digit, because every
alternative of the preceding group ends in a word character. -/
def sexualExploitationAgePatterns : List RE :=
  [rseq [sexI, dotS, ageNum, wsDashS, altW ["year", "yr"], wsDashS, rl "old", sOpt],
   rseq [sexI, dotS, ageNum, wsDashS, rl "yo"],
   rseq [sexI, dotS, ageNum, wsDashS, rl "y/o"],
   rseq [sexI, dotS, ageNum, wsDashS, rl "yr", sOpt, wb],
   rseq [sexI, dotS, ageNum, wsDashS, rl "year", sOpt, wsDashS, rl "old", sOpt],
   rseq [sexI, dotS, ageNum, wsDashS, rl "year", wsDashS, rl "old", sOpt],
   rseq [sexI, dotS, RE.cls nwNN, ageNum, wb],
   rseq [sexI, dotS, spelledAges, wsDashS, altW ["year", "yr"], wsDashS, rl "old", sOpt],
   rseq [sexI, dotS, spelledAges, wsDashS, rl "yo"],
   rseq [sexI, dotS, spelledAges, wsDashS, rl "year", wsDashS, rl "old", sOpt],
   rseq [sexI, dotS, altW ["teen", "teenager", "adolescent", "youth", "minor"]],
   rseq [sexI, dotS, ralt [rseq [rl "under", dotS, age89],
                           rseq [rl "below", dotS, age89],
                           rseq [rl "younger", dotS, rl "than", dotS, age89]]],
   rseq [sexI, dotS, ralt [rseq [rl "pre", dotS, rl "teen"], rl "preteen",
                           rseq [rl "pre", dotS, rl "pubescent"], rl "prepubescent",
                           rl "elementary", rseq [rl "middle", dotS, rl "school"],
                           rseq [rl "junior", dotS, rl "high"]]],
   rseq [sexI, dotS, ralt [rseq [rl "elementary", dotS, rl "student"],
                           rseq [rl "middle", dotS, rl "school", dotS, rl "student"],
                           rseq [rl "junior", dotS, rl "high", dotS, rl "student"],
                           rseq [rl "high", dotS, rl "school", dotS, rl "freshman"],
                           rseq [rl "high", dotS, rl "school", dotS, rl "sophomore"]]],
   rseq [sexI, dotS, ralt [rseq [rl "just", dotS, rl "turned", dotS, age89],
                           rseq [rl "barely", dotS, age89],
                           rseq [rl "young", dotS, age89]]]]

/-- `ageExploitationPatterns` (content-filter.ts 442–483), with the same `\b`
compilation. -/
def ageExploitationPatterns : List RE :=
  [rseq [wantI, dotS, ageNum, wsDashS, altW ["year", "yr"], wsDashS, rl "old", sOpt],
   rseq [wantI, dotS, ageNum, wsDashS, rl "yo"],
   rseq [wantI, dotS, ageNum, wsDashS, rl "y/o"],
   rseq [wantI, dotS, ageNum, wsDashS, rl "yr", sOpt, wb],
   rseq [wantI, dotS, ageNum, wsDashS, rl "year", sOpt, wsDashS, rl "old", sOpt],
   rseq [wantI, dotS, ageNum, wsDashS, rl "year", wsDashS, rl "old", sOpt],
   rseq [wantI, dotS, RE.cls nwNN, ageNum, wb],
   rseq [rl "find", dotS, ageNum, wsDashS, altW ["year", "yr"], wsDashS,
         rl "old", sOpt, dotS, rl "attractive"],
   rseq [rl "find", dotS, ageNum, wsDashS, rl "yo", dotS, rl "attractive"],
   rseq [rl "find", dotS, ageNum, wsDashS, rl "y/o", dotS, rl "attractive"],
   rseq [rl "find", dotS, ageNum, wsDashS, rl "yr", sOpt, RE.cls nwNN, dotS,
         rl "attractive"],
   rseq [rl "find", dotS, ageNum, wsDashS, rl "year", sOpt, wsDashS, rl "old",
         sOpt, dotS, rl "attractive"],
   rseq [rl "find", dotS, ageNum, wsDashS, rl "year", wsDashS, rl "old", sOpt,
         dotS, rl "attractive"],
   rseq [rl "find", dotS, RE.cls nwNN, ageNum, RE.cls nwNN, dotS, rl "attractive"],
   rseq [wantIF, dotS, spelledAges, wsDashS, altW ["year", "yr"], wsDashS,
         rl "old", sOpt],
   rseq [wantIF, dotS, spelledAges, wsDashS, rl "yo"],
   rseq [wantIF, dotS, spelledAges, wsDashS, rl "year", wsDashS, rl "old", sOpt],
   rseq [wantI, dotS, spelledAges, chR '-', rl "year", chR '-', rl "old", sOpt],
   rseq [rl "find", dotS, spelledAges, chR '-', rl "year", chR '-', rl "old",
         sOpt, dotS, rl "attractive"],
   rseq [wantIF, dotS, rl "pre", dotS, rl "teen", sOpt],
   rseq [wantIF, dotS, rl "preteen"],
   rseq [wantIF, dotS, rl "middle", dotS, rl "school"],
   rseq [wantIF, dotS, rl "junior", dotS, rl "high"],
   rseq [wantIF, dotS, rl "elementary"],
   rseq [rl "like", dotS, rl "junior", dotS, rl "high", dotS, rl "school",
         dotS, girlsBoysStudents],
   rseq [rl "find", dotS, rl "middle", dotS, rl "school", dotS,
         girlsBoysStudents, dotS, rl "attractive"],
   rseq [rl "attracted", dotS, rl "elementary", dotS, girlsBoysStudents],
   rseq [wantIF, dotS, rl "young", dotS, girlsBoys],
   rseq [wantIF, dotS, girlsBoys, dotS, rl "under", dotS, age89],
   rseq [wantIF, dotS, altW ["neighbor", "friend", "classmate", "student"],
         dotS, ageNum],
   rseq [wantIF, dotS, rl "my", dotS, ageNum, wsDashS,
         ralt [rl "yo", rl "y/o", rseq [rl "year", wsDashS, rl "old"]]]]

/-- Keyword list `criticalKeywords` (content-filter.ts 508–511). -/
def childCriticalKeywords : List Str :=
  [strL "groom", strL "molest", strL "pedophile", strL "loli", strL "shota",
   strL "cp", strL "csam", strL "child porn", strL "kiddie", strL "preteen",
   strL "jailbait", strL "underage"]

/-- Category evaluator `checkChildSafetyIntent` (content-filter.ts 311–524). -/
def checkChildSafetyIntent (low : Str) : IntentCheck :=
  if (groomingPatterns ++ exploitationPatterns ++ euphemisticPatterns ++
      onlinePredatorPatterns ++ supervisionBypassPatterns ++
      ageTargetingPatterns ++ sexualExploitationAgePatterns ++
      ageExploitationPatterns).any (fun p => rsearch p low) then
    { isViolation := true,
      reason := some "Content endangering child safety - prohibited contact or exploitation",
      confidence := mkRat 95 100 }
  else if childCriticalKeywords.any (fun k => includesL k low) then
    { isViolation := true,
      reason := some "Content endangering child safety - prohibited terminology",
      confidence := mkRat 98 100 }
  else { isViolation := false, reason := none, confidence := mkRat 95 100 }

/-- `drugManufacturingPatterns` (content-filter.ts 530–535). -/
def drugManufacturingPatterns : List RE :=
  [rseq [rl "how to ", altW ["make", "cook", "manufacture"], dotS,
         altW ["meth", "cocaine", "heroin", "fentanyl"]],
   rseq [rl "teach me", dotS, rl "drug", dotS, rl "production"],
   rseq [rl "instructions", dotS, rl "illegal", dotS, rl "drugs"],
   rseq [rl "help me", dotS, rl "synthesize"]]

/-- `fraudPatterns` (content-filter.ts 537–543). -/
def fraudPatterns : List RE :=
  [rseq [rl "how to", dotS, rl "steal", dotS, rl "identity"],
   rseq [rl "teach me", dotS, rl "credit card", dotS, rl "fraud"],
   rseq [rl "help me", dotS, rl "scam", dotS, rl "people"],
   rseq [rl "instructions", dotS, rl "fake", dotS, rl "documents"],
   rseq [rl "ways to", dotS, rl "launder", dotS, rl "money"]]

/-- `hackingPatterns` (content-filter.ts 545–551). -/
def hackingPatterns : List RE :=
  [rseq [rl "how to", dotS, rl "hack", dotS, rl "into"],
   rseq [rl "teach me", dotS, rl "break", dotS, rl "into", dotS, rl "system"],
   rseq [rl "help me", dotS, rl "steal", dotS, rl "data"],
   rseq [rl "instructions", dotS, rl "unauthorized", dotS, rl "access"],
   rseq [rl "ways to", dotS, rl "bypass", dotS, rl "security"]]

/-- Category evaluator `checkIllegalActivitiesIntent` (content-filter.ts
529–584). -/
def checkIllegalActivitiesIntent (low : Str) : IntentCheck :=
  if drugManufacturingPatterns.any (fun p => rsearch p low) then
    { isViolation := true, reason := some "Instructions for illegal drug manufacturing",
      confidence := mkRat 95 100 }
  else if fraudPatterns.any (fun p => rsearch p low) then
    { isViolation := true, reason := some "Instructions for fraud or financial crimes",
      confidence := mkRat 95 100 }
  else if hackingPatterns.any (fun p => rsearch p low) then
    { isViolation := true, reason := some "Instructions for hacking or unauthorized access",
      confidence := mkRat 90 100 }
  else { isViolation := false, reason := none, confidence := mkRat 95 100 }

/-- `doxxingPatterns` (content-filter.ts 590–596). -/
def doxxingPatterns : List RE :=
  [rseq [rl "help me", dotS, rl "find", dotS, rl "personal", dotS, rl "information"],
   rseq [rl "how to", dotS, rl "doxx", dotS, rl "someone"],
   rseq [rl "teach me", dotS, rl "stalk"],
   rseq [rl "ways to", dotS, rl "track", dotS, rl "person"],
   rseq [rl "find", dotS, rl "someone\x27s", dotS, rl "address"]]

/-- `surveillancePatterns` (content-filter.ts 598–603). -/
def surveillancePatterns : List RE :=
  [rseq [rl "how to", dotS, rl "spy", dotS, rl "on"],
   rseq [rl "teach me", dotS, rl "monitor", dotS, rl "someone"],
   rseq [rl "help me", dotS, rl "watch", dotS, rl "without", dotS, rl "permission"],
   rseq [rl "instructions", dotS, rl "track", dotS, rl "location"]]

/-- Category evaluator `checkPrivacyViolationsIntent` (content-filter.ts
589–626). -/
def checkPrivacyViolationsIntent (low : Str) : IntentCheck :=
  if doxxingPatterns.any (fun p => rsearch p low) then
    { isViolation := true, reason := some "Instructions for doxxing or privacy violations",
      confidence := mkRat 95 100 }
  else if surveillancePatterns.any (fun p => rsearch p low) then
    { isViolation := true, reason := some "Instructions for unauthorized surveillance",
      confidence := mkRat 90 100 }
  else { isViolation := false, reason := none, confidence := mkRat 95 100 }

/-- `harassmentPatterns` (content-filter.ts 632–638). -/
def harassmentPatterns : List RE :=
  [rseq [rl "how to", dotS, rl "bully"],
   rseq [rl "teach me", dotS, rl "harass"],
   rseq [rl "help me", dotS, rl "intimidate"],
   rseq [rl "ways to", dotS, rl "threaten"],
   rseq [rl "instructions", dotS, rl "make", dotS, rl "afraid"]]

/-- `organizedHarassmentPatterns` (content-filter.ts 640–644). -/
def organizedHarassmentPatterns : List RE :=
  [rseq [rl "help me", dotS, rl "organize", dotS, rl "campaign", dotS, rl "against"],
   rseq [rl "coordinate", dotS, rl "harassment"],
   rseq [rl "plan", dotS, rl "attack", dotS, rl "on", dotS, rl "group"]]

/-- `dehumanizingPatterns` (content-filter.ts 646–650): declared in the source
with placeholder literals `[group]`/`[slur]` but never evaluated by
`checkHateSpeechIntent` — dead data, transcribed for completeness. -/
def dehumanizingPatterns : List RE :=
  [rseq [rl "all", dotS, rl "[group]", dotS, rl "are", dotS, rl "[slur]"],
   rseq [rl "[group]", dotS, rl "don\x27t", dotS, rl "deserve"],
   rseq [rl "we should", dotS, rl "eliminate", dotS, rl "[group]"]]

/-- Category evaluator `checkHateSpeechIntent` (content-filter.ts 631–673);
only the harassment and organized-harassment groups are evaluated. -/
def checkHateSpeechIntent (low : Str) : IntentCheck :=
  if harassmentPatterns.any (fun p => rsearch p low) then
    { isViolation := true, reason := some "Instructions for harassment or bullying",
      confidence := mkRat 95 100 }
  else if organizedHarassmentPatterns.any (fun p => rsearch p low) then
    { isViolation := true, reason := some "Organizing harassment campaigns",
      confidence := mkRat 90 100 }
  else { isViolation := false, reason := none, confidence := mkRat 95 100 }

/-- `pornographyPatterns` (content-filter.ts 680–697). -/
def pornographyPatterns : List RE :=
  [rseq [rl "generate", dotS, rl "porn"],
   rseq [rl "create", dotS, rl "porn"],
   rseq [rl "make", dotS, rl "porn"],
   rseq [rl "write", dotS, rl "porn"],
   rseq [rl "show", dotS, rl "me", dotS, rl "porn"],
   rseq [rl "give", dotS, rl "me", dotS, rl "porn"],
   rseq [rl "find", dotS, rl "porn"],
   rl "pornographic",
   rseq [rl "explicit", dotS, rl "sexual"],
   rseq [rl "sexual", dotS, rl "explicit"],
   rseq [rl "nude", dotS, rl "photo"],
   rseq [rl "naked", dotS, rl "photo"],
   rseq [rl "dick", dotS, rl "pic"],
   rseq [rl "pussy", dotS, rl "pic"],
   rseq [rl "send", dotS, rl "nudes"],
   rseq [rl "share", dotS, rl "nudes"]]

/-- `sexualRoleplayPatterns` (content-filter.ts 700–713). -/
def sexualRoleplayPatterns : List RE :=
  [rseq [rl "roleplay", dotS, rl "sex"],
   rseq [rl "sexual", dotS, rl "roleplay"],
   rseq [rl "pretend", dotS, rl "we", dotS, rl "are", dotS, rl "having", dotS, rl "sex"],
   rseq [rl "act", dotS, rl "like", dotS, rl "we", dotS, rl "are", dotS,
         rl "having", dotS, rl "sex"],
   rseq [rl "simulate", dotS, rl "sex"],
   rseq [rl "write", dotS, rl "sexual", dotS, rl "scenario"],
   rseq [rl "describe", dotS, rl "sexual", dotS, rl "act"],
   rseq [rl "generate", dotS, rl "sexual", dotS, rl "content"],
   rseq [rl "erotic", dotS, rl "story"],
   rseq [rl "sexual", dotS, rl "fantasy"],
   rseq [rl "masturbation", dotS, rl "story"],
   rseq [rl "orgasm", dotS, rl "story"]]

/-- `explicitSexualRequests` (content-filter.ts 716–728). -/
def explicitSexualRequests : List RE :=
  [rseq [rl "how", dotS, rl "to", dotS, rl "have", dotS, rl "sex"],
   rseq [rl "teach", dotS, rl "me", dotS, rl "sex"],
   rseq [rl "show", dotS, rl "me", dotS, rl "how", dotS, rl "to", dotS, rl "fuck"],
   rseq [rl "describe", dotS, rl "fucking"],
   rseq [rl "tell", dotS, rl "me", dotS, rl "about", dotS, rl "fucking"],
   rseq [rl "what", dotS, rl "does", dotS, rl "sex", dotS, rl "feel", dotS, rl "like"],
   rseq [rl "describe", dotS, rl "orgasm"],
   rseq [rl "tell", dotS, rl "me", dotS, rl "about", dotS, rl "masturbation"],
   rseq [rl "how", dotS, rl "to", dotS, rl "masturbate"],
   rseq [rl "sexual", dotS, rl "positions"],
   rseq [rl "describe", dotS, rl "sexual", dotS, rl "pleasure"]]

/-- `adultEntertainmentPatterns` (content-filter.ts 731–744). -/
def adultEntertainmentPatterns : List RE :=
  [rseq [rl "adult", dotS, rl "entertainment"],
   rseq [rl "nsfw", dotS, rl "content"],
   rseq [rl "adult", dotS, rl "video"],
   rseq [rl "sex", dotS, rl "video"],
   rseq [rl "porn", dotS, rl "video"],
   rseq [rl "adult", dotS, rl "website"],
   rseq [rl "sex", dotS, rl "site"],
   rseq [rl "porn", dotS, rl "site"],
   rseq [rl "adult", dotS, rl "material"],
   rseq [rl "sexual", dotS, rl "material"],
   rseq [rl "xxx", dotS, rl "content"],
   rseq [rl "adult", dotS, rl "only"]]

/-- `euphemisticSexualPatterns` (content-filter.ts 747–767). -/
def euphemisticSexualPatterns : List RE :=
  [rseq [rl "intimate", dotS, rl "stories"],
   rseq [rl "steamy", dotS, rl "stories"],
   rseq [rl "spicy", dotS, rl "content"],
   rseq [rl "adult", dotS, rl "stories"],
   rseq [rl "romantic", dotS, rl "encounters", dotS, rl "sexual"],
   rseq [rl "sensual", dotS, rl "stories"],
   rseq [rl "passionate", dotS, rl "stories"],
   rseq [rl "bedroom", dotS, rl "activities"],
   rseq [rl "private", dotS, rl "moments", dotS, rl "sexual"],
   rseq [rl "adult", dotS, rl "roleplay"],
   rseq [altW ["teach me", "show me", "help me"], dotS,
         altW ["seduce", "pleasure", "satisfy"], dotS, rl "sexually"],
   rseq [rl "sexual", dotS, rl "techniques"],
   rseq [rl "intimate", dotS, rl "techniques"],
   rseq [rl "bedroom", dotS, rl "skills"],
   rseq [altW ["make me", "help me feel"], rl " ",
         altW ["turned on", "aroused", "sexually excited"]],
   rseq [rl "sexual", dotS, rl "education", dotS, rl "explicit"],
   rseq [rl "sex", dotS, rl "education", dotS, rl "graphic"],
   rseq [rl "mature", dotS, rl "content", dotS, rl "sexual"],
   rseq [rl "erotic", dotS, rl "content"]]

/-- Keyword list `explicitKeywords` (content-filter.ts 789–793). -/
def explicitKeywords : List Str :=
  [strL "porn", strL "porno", strL "pornography", strL "xxx", strL "nsfw",
   strL "nude", strL "naked", strL "dick", strL "cock", strL "pussy",
   strL "vagina", strL "penis", strL "tits", strL "boobs", strL "ass",
   strL "anal", strL "blowjob", strL "handjob", strL "cumshot", strL "orgasm",
   strL "masturbate", strL "jerk off", strL "finger", strL "dildo",
   strL "vibrator"]

/-- Keyword list `inappropriateContextKeywords` (content-filter.ts 796–798). -/
def inappropriateContextKeywords : List Str :=
  [strL "sexy", strL "horny", strL "aroused", strL "turned on", strL "wet",
   strL "hard", strL "erect", strL "climax"]

/-- Context phrases checked with `explicitKeywords` (content-filter.ts
803–806). -/
def sexualContext : List Str :=
  [strL "show me", strL "give me", strL "want to see", strL "generate",
   strL "create", strL "make me", strL "describe", strL "tell me about",
   strL "roleplay", strL "pretend", strL "simulate"]

/-- Context phrases checked with `inappropriateContextKeywords`
(content-filter.ts 821–823). -/
def sexualCombinations : List Str :=
  [strL "make me", strL "get me", strL "help me get", strL "want to be",
   strL "feeling", strL "getting"]

/-- Category evaluator `checkAdultContentIntent` (content-filter.ts 678–836).
The two keyword loops return on the first keyword that occurs together with a
context phrase; as reason and confidence are fixed per loop, this is the
any-of-conjunction below. -/
def checkAdultContentIntent (low : Str) : IntentCheck :=
  if (pornographyPatterns ++ sexualRoleplayPatterns ++ explicitSexualRequests ++
      adultEntertainmentPatterns ++ euphemisticSexualPatterns).any
      (fun p => rsearch p low) then
    { isViolation := true, reason := some "Adult/sexual content request",
      confidence := mkRat 90 100 }
  else if explicitKeywords.any (fun k => includesL k low) &&
      sexualContext.any (fun c => includesL c low) then
    { isViolation := true,
      reason := some "Explicit sexual content request with inappropriate context",
      confidence := mkRat 95 100 }
  else if inappropriateContextKeywords.any (fun k => includesL k low) &&
      sexualCombinations.any (fun c => includesL c low) then
    { isViolation := true, reason := some "Sexual content with inappropriate context",
      confidence := mkRat 85 100 }
  else { isViolation := false, reason := none, confidence := mkRat 95 100 }

/-- Helper `createViolationResult` (content-filter.ts 870–884). -/
def createViolationResult (violationType : String) (reason : String)
    (confidence : ℚ) : SafetyCheckResult :=
  { isAllowed := false
    violationType := some violationType
    reason := some reason
    confidence := confidence
    radioSilence := true }

/-- Entry point `checkContent` (content-filter.ts 30–82): the seven category
evaluators run in the fixed source order against the lower-cased message, the
first violation short-circuits into `createViolationResult`, and the fall
through is the allowed verdict.  The JS fallback `check.reason || 'default'`
is `Option.getD` here, as every produced reason is a non-empty literal. -/
def checkContent (ctx : SafetyContext) : SafetyCheckResult :=
  let messageLower := lowerStr ctx.userMessage
  if (checkViolenceIntent messageLower).isViolation then
    createViolationResult "violence"
      ((checkViolenceIntent messageLower).reason.getD "Violence-related content detected")
      (checkViolenceIntent messageLower).confidence
  else if (checkSelfHarmIntent messageLower).isViolation then
    createViolationResult "self-harm"
      ((checkSelfHarmIntent messageLower).reason.getD "Self-harm content detected")
      (checkSelfHarmIntent messageLower).confidence
  else if (checkChildSafetyIntent messageLower).isViolation then
    createViolationResult "child-safety"
      ((checkChildSafetyIntent messageLower).reason.getD "Child safety violation detected")
      (checkChildSafetyIntent messageLower).confidence
  else if (checkIllegalActivitiesIntent messageLower).isViolation then
    createViolationResult "illegal-activities"
      ((checkIllegalActivitiesIntent messageLower).reason.getD "Illegal activities content detected")
      (checkIllegalActivitiesIntent messageLower).confidence
  else if (checkPrivacyViolationsIntent messageLower).isViolation then
    createViolationResult "privacy-violations"
      ((checkPrivacyViolationsIntent messageLower).reason.getD "Privacy violation detected")
      (checkPrivacyViolationsIntent messageLower).confidence
  else if (checkHateSpeechIntent messageLower).isViolation then
    createViolationResult "hate-speech"
      ((checkHateSpeechIntent messageLower).reason.getD "Hate speech detected")
      (checkHateSpeechIntent messageLower).confidence
  else if (checkAdultContentIntent messageLower).isViolation then
    createViolationResult "adult-content"
      ((checkAdultContentIntent messageLower).reason.getD "Adult content detected")
      (checkAdultContentIntent messageLower).confidence
  else
    { isAllowed := true
      violationType := none
      reason := none
      confidence := mkRat 95 100
      radioSilence := false }

end NoahContentFilter

section ListLemmas

theorem mem_of_mem_dropWhileL {p : Char → Bool} {l : Str} {x : Char}
    (h : x ∈ l.dropWhile p) : x ∈ l := by
  induction l with
  | nil => simp at h
  | cons c t ih =>
    by_cases hp : p c
    · simp only [List.dropWhile_cons, hp, if_true] at h
      exact List.mem_cons_of_mem c (ih h)
    · simpa [List.dropWhile_cons, hp] using h

theorem mem_of_mem_dropL {l : Str} {x : Char} :
    ∀ n, x ∈ l.drop n → x ∈ l := by
  induction l with
  | nil => intro n h; simp at h
  | cons c t ih =>
    intro n h
    cases n with
    | zero => simpa using h
    | succ m => exact List.mem_cons_of_mem c (ih m h)

theorem mem_of_mem_trimL {s : Str} {x : Char} (h : x ∈ trimL s) : x ∈ s := by
  unfold trimL at h
  rw [List.mem_reverse] at h
  have h2 := mem_of_mem_dropWhileL h
  rw [List.mem_reverse] at h2
  exact mem_of_mem_dropWhileL h2

theorem startsWith_single {c : Char} {t : Str} (h : startsWithL [c] t = true) :
    c ∈ t := by
  cases t with
  | nil => simp [startsWithL] at h
  | cons b bs =>
    simp only [startsWithL, Bool.and_eq_true, beq_iff_eq] at h
    simp [h.1]

theorem dropWhile_nil_all {p : Char → Bool} {l : Str}
    (h : l.dropWhile p = []) : ∀ x ∈ l, p x = true := by
  induction l with
  | nil => simp
  | cons c t ih =>
    by_cases hp : p c
    · simp only [List.dropWhile_cons, hp, if_true] at h
      intro x hx
      rcases List.mem_cons.mp hx with rfl | hx
      · exact hp
      · exact ih h x hx
    · simp [List.dropWhile_cons, hp] at h

theorem dropWhile_head_false {p : Char → Bool} {l u : Str} {c : Char}
    (h : l.dropWhile p = c :: u) : p c = false := by
  induction l with
  | nil => simp at h
  | cons b t ih =>
    by_cases hp : p b
    · simp only [List.dropWhile_cons, hp, if_true] at h
      exact ih h
    · simp only [List.dropWhile_cons, hp, if_false] at h
      cases h
      simpa using hp

end ListLemmas

section FilterTheorems

open NoahContentFilter

/-- The first bypass pattern matches at an occurrence of the literal phrase. -/
theorem bypass_story_matches (v : Str) :
    pmatch (rseq [rl "it\x27s for a ", altW ["story", "book", "movie", "novel"]])
      (strL "it\x27s for a story" ++ v) = true := by
  have hsplit : strL "it\x27s for a story" = strL "it\x27s for a " ++ strL "story" := by
    decide
  rw [hsplit, List.append_assoc]
  have e1 : rseq [rl "it\x27s for a ", altW ["story", "book", "movie", "novel"]]
      = RE.seq (litR (strL "it\x27s for a ")) (altW ["story", "book", "movie", "novel"]) := rfl
  rw [e1, pmatch_litR_seq]
  have e2 : altW ["story", "book", "movie", "novel"]
      = RE.alt (litR (strL "story")) (ralt [rl "book", rl "movie", rl "novel"]) := rfl
  rw [e2, pmatch_alt, lit_self]
  simp

/-- An occurrence of the phrase makes `hasNoExceptionsBypass` fire. -/
theorem hasBypass_of_story {low : Str}
    (h : includesL (strL "it\x27s for a story") low = true) :
    hasNoExceptionsBypass low = true := by
  obtain ⟨u, w, rfl⟩ := includesL_elim h
  have hm := bypass_story_matches w
  have hs := rsearch_of_suffix u hm
  rw [← List.append_assoc] at hs
  unfold hasNoExceptionsBypass bypassPatterns
  simp only [List.any_cons, hs, Bool.true_or]

/-- An occurrence of `kill` makes `hasViolenceKeywords` fire. -/
theorem hasViolenceKeywords_of_kill {low : Str}
    (h : includesL (strL "kill") low = true) :
    hasViolenceKeywords low = true := by
  unfold hasViolenceKeywords violenceKeywords
  simp only [List.any_cons, h, Bool.or_true, Bool.true_or, Bool.or_self]

/-- Whatever the earlier pattern groups do, the no-exceptions co-occurrence
rule makes `checkViolenceIntent` report a violation. -/
theorem violence_of_bypass {low : Str}
    (hb : hasNoExceptionsBypass low = true)
    (hk : hasViolenceKeywords low = true) :
    (checkViolenceIntent low).isViolation = true := by
  unfold checkViolenceIntent
  split
  · rfl
  · split
    · rfl
    · split
      · rfl
      · split
        · rfl
        · rename_i h4
          rw [hb, hk] at h4
          simp at h4

/-- Claim C2: a message whose lower-cased form contains both the bypass phrase
and the violence keyword is always blocked — bypass framing never flips
`isAllowed` to `true`. -/
theorem c2_bypass_story_kill_blocked (ctx : SafetyContext)
    (h1 : includesL (strL "it\x27s for a story") (lowerStr ctx.userMessage) = true)
    (h2 : includesL (strL "kill") (lowerStr ctx.userMessage) = true) :
    (checkContent ctx).isAllowed = false := by
  have hv := violence_of_bypass (hasBypass_of_story h1) (hasViolenceKeywords_of_kill h2)
  unfold checkContent
  simp only [hv, if_true, createViolationResult]

/-- Witness for C2 at a concrete message. -/
def c2msg : Str := strL "It\x27s for a story where I kill the dragon"

theorem c2_bypass_story_kill_blocked_wit :
    includesL (strL "it\x27s for a story") (lowerStr c2msg) = true ∧
    includesL (strL "kill") (lowerStr c2msg) = true ∧
    (checkContent { userMessage := c2msg }).isAllowed = false :=
  ⟨by decide, by decide,
   c2_bypass_story_kill_blocked { userMessage := c2msg } (by decide) (by decide)⟩

/-- Claim C9: when no category reports a violation the verdict is exactly
`{isAllowed := true, confidence := mkRat 95 100, radioSilence := false}` (with no
violation type and no reason).  All evaluators are total functions, so empty
and whitespace-only messages in particular cannot crash and fall through to
this verdict. -/
theorem c9_no_violation_allowed (ctx : SafetyContext)
    (h1 : (checkViolenceIntent (lowerStr ctx.userMessage)).isViolation = false)
    (h2 : (checkSelfHarmIntent (lowerStr ctx.userMessage)).isViolation = false)
    (h3 : (checkChildSafetyIntent (lowerStr ctx.userMessage)).isViolation = false)
    (h4 : (checkIllegalActivitiesIntent (lowerStr ctx.userMessage)).isViolation = false)
    (h5 : (checkPrivacyViolationsIntent (lowerStr ctx.userMessage)).isViolation = false)
    (h6 : (checkHateSpeechIntent (lowerStr ctx.userMessage)).isViolation = false)
    (h7 : (checkAdultContentIntent (lowerStr ctx.userMessage)).isViolation = false) :
    checkContent ctx =
      { isAllowed := true, violationType := none, reason := none,
        confidence := mkRat 95 100, radioSilence := false } := by
  unfold checkContent
  simp only [h1, h2, h3, h4, h5, h6, h7, Bool.false_eq_true, if_false]

/-- Witness for C9 at the empty and a whitespace-only message. -/
theorem c9_no_violation_allowed_wit :
    checkContent { userMessage := [] } =
      { isAllowed := true, violationType := none, reason := none,
        confidence := mkRat 95 100, radioSilence := false } ∧
    checkContent { userMessage := strL " \n " } =
      { isAllowed := true, violationType := none, reason := none,
        confidence := mkRat 95 100, radioSilence := false } :=
  ⟨c9_no_violation_allowed { userMessage := [] }
     (by decide) (by decide) (by decide) (by decide) (by decide) (by decide) (by decide),
   c9_no_violation_allowed { userMessage := strL " \n " }
     (by decide) (by decide) (by decide) (by decide) (by decide) (by decide) (by decide)⟩

/-- Claim C10: the verdict of `checkContent` is a function of `userMessage`
alone — `conversationHistory` and `sessionId` (used only in dropped logging)
never influence the classification. -/
theorem c10_verdict_depends_only_on_message (ctxa ctxb : SafetyContext)
    (h : ctxa.userMessage = ctxb.userMessage) :
    checkContent ctxa = checkContent ctxb := by
  unfold checkContent
  rw [h]

/-- Witness for C10: identical message, different history and session. -/
theorem c10_verdict_depends_only_on_message_wit :
    checkContent { userMessage := strL "build me a timer",
                   conversationHistory := [strL "earlier message"],
                   sessionId := some (strL "session-123") } =
    checkContent { userMessage := strL "build me a timer" } :=
  c10_verdict_depends_only_on_message _ _ rfl

/-- The seven categories in their fixed evaluation order (content-filter.ts
30–82), each paired with the violation type `checkContent` reports for it. -/
def categoryOrder : Fin 7 → String × (Str → IntentCheck) :=
  fun i =>
    match i with
    | ⟨0, _⟩ => ("violence", checkViolenceIntent)
    | ⟨1, _⟩ => ("self-harm", checkSelfHarmIntent)
    | ⟨2, _⟩ => ("child-safety", checkChildSafetyIntent)
    | ⟨3, _⟩ => ("illegal-activities", checkIllegalActivitiesIntent)
    | ⟨4, _⟩ => ("privacy-violations", checkPrivacyViolationsIntent)
    | ⟨5, _⟩ => ("hate-speech", checkHateSpeechIntent)
    | ⟨6, _⟩ => ("adult-content", checkAdultContentIntent)

/-- Claim C3: `checkContent` evaluates the seven categories in the fixed
order of `categoryOrder` and returns on the first violation: whenever all
earlier categories report no violation and category `i` reports one, the
verdict is a violation of exactly that category — with no assumption at all
about the later categories.  In particular (at `i = 0`) a message matching
both a violence pattern and a hate-speech pattern is classified `violence`,
never `hate-speech`. -/
theorem c3_category_order_first_wins (ctx : SafetyContext) (i : Fin 7)
    (hbefore : ∀ j : Fin 7, j < i →
      ((categoryOrder j).2 (lowerStr ctx.userMessage)).isViolation = false)
    (hi : ((categoryOrder i).2 (lowerStr ctx.userMessage)).isViolation = true) :
    (checkContent ctx).isAllowed = false ∧
    (checkContent ctx).violationType = some (categoryOrder i).1 := by
  fin_cases i
  · simp only [categoryOrder] at hi
    unfold checkContent
    simp [hi, createViolationResult, categoryOrder]
  · have g0 := hbefore 0 (by decide)
    simp only [categoryOrder] at g0 hi
    unfold checkContent
    simp [g0, hi, createViolationResult, categoryOrder]
  · have g0 := hbefore 0 (by decide)
    have g1 := hbefore 1 (by decide)
    simp only [categoryOrder] at g0 g1 hi
    unfold checkContent
    simp [g0, g1, hi, createViolationResult, categoryOrder]
  · have g0 := hbefore 0 (by decide)
    have g1 := hbefore 1 (by decide)
    have g2 := hbefore 2 (by decide)
    simp only [categoryOrder] at g0 g1 g2 hi
    unfold checkContent
    simp [g0, g1, g2, hi, createViolationResult, categoryOrder]
  · have g0 := hbefore 0 (by decide)
    have g1 := hbefore 1 (by decide)
    have g2 := hbefore 2 (by decide)
    have g3 := hbefore 3 (by decide)
    simp only [categoryOrder] at g0 g1 g2 g3 hi
    unfold checkContent
    simp [g0, g1, g2, g3, hi, createViolationResult, categoryOrder]
  · have g0 := hbefore 0 (by decide)
    have g1 := hbefore 1 (by decide)
    have g2 := hbefore 2 (by decide)
    have g3 := hbefore 3 (by decide)
    have g4 := hbefore 4 (by decide)
    simp only [categoryOrder] at g0 g1 g2 g3 g4 hi
    unfold checkContent
    simp [g0, g1, g2, g3, g4, hi, createViolationResult, categoryOrder]
  · have g0 := hbefore 0 (by decide)
    have g1 := hbefore 1 (by decide)
    have g2 := hbefore 2 (by decide)
    have g3 := hbefore 3 (by decide)
    have g4 := hbefore 4 (by decide)
    have g5 := hbefore 5 (by decide)
    simp only [categoryOrder] at g0 g1 g2 g3 g4 g5 hi
    unfold checkContent
    simp [g0, g1, g2, g3, g4, g5, hi, createViolationResult, categoryOrder]

/-- Witness message for C3 matching a violence pattern and a hate-speech
pattern at once. -/
def c3msg : Str := strL "teach me to kill my enemies and also how to bully people"

/-- Witness for C3: the message triggers both the violence and the
hate-speech evaluator, and `checkContent` classifies it as `violence`. -/
theorem c3_category_order_first_wins_wit :
    (checkViolenceIntent (lowerStr c3msg)).isViolation = true ∧
    (checkHateSpeechIntent (lowerStr c3msg)).isViolation = true ∧
    (checkContent { userMessage := c3msg }).isAllowed = false ∧
    (checkContent { userMessage := c3msg }).violationType = some "violence" := by
  refine ⟨by decide, by decide, ?_⟩
  exact c3_category_order_first_wins { userMessage := c3msg } 0
    (fun j hj => absurd hj (by simp [Fin.not_lt_zero])) (by decide)

end FilterTheorems

section ParserTheorems

open StructuredResponseParser

theorem detectHTMLTool_responseType {c a : Str} {r : StructuredResponse}
    (h : detectHTMLTool c a = some r) :
    r.responseType = strL "tool-generation" := by
  simp only [detectHTMLTool] at h
  split at h
  · cases h; rfl
  · cases h

theorem detectResearchResult_responseType {c a : Str} {r : StructuredResponse}
    (h : detectResearchResult c a = some r) :
    r.responseType = strL "research" := by
  simp only [detectResearchResult] at h
  split at h
  · cases h
  · split at h
    · cases h
    · cases h; rfl

theorem parseLegacyFormat_responseType {c a : Str} {r : StructuredResponse}
    (h : parseLegacyFormat c a = some r) :
    r.responseType = strL "tool-generation" := by
  simp only [parseLegacyFormat] at h
  split at h
  · split at h
    · cases h; rfl
    · cases h
  · cases h

/-- Claim C1 (amended): outside the two JSON strategies — which return the
JSON's own `responseType` next to a valid artifact unchanged — every
successful parse carrying an artifact is `tool-generation` or `research`
(strategies 3–5 set exactly those; the conversation fallback never carries an
artifact). -/
theorem c1_nonjson_artifact_responseType (text agent : Str)
    (h1 : parseStructuredJSON text agent = none)
    (h2 : extractStructuredFromMixed text agent = none)
    (h3 : ((parse text agent).response.bind (fun r => r.artifact)).isSome = true) :
    (parse text agent).response.map (fun r => r.responseType)
        = some (strL "tool-generation") ∨
    (parse text agent).response.map (fun r => r.responseType)
        = some (strL "research") := by
  unfold parse at h3 ⊢
  simp only [h1, h2] at h3 ⊢
  cases hH : detectHTMLTool text agent with
  | some r =>
    simp only [hH] at h3 ⊢
    left
    simp [detectHTMLTool_responseType hH]
  | none =>
    simp only [hH] at h3 ⊢
    cases hR : detectResearchResult text agent with
    | some r =>
      simp only [hR] at h3 ⊢
      right
      simp [detectResearchResult_responseType hR]
    | none =>
      simp only [hR] at h3 ⊢
      cases hL : parseLegacyFormat text agent with
      | some r =>
        simp only [hL] at h3 ⊢
        left
        simp [parseLegacyFormat_responseType hL]
      | none =>
        simp only [hL] at h3
        simp at h3

/-- Counterexample input for C1: top-level structured JSON declaring
`responseType: conversation` while carrying a fully valid artifact. -/
def c1x : Str :=
  strL "\x7b\"content\":\"hi\",\"responseType\":\"conversation\",\"confidence\":0.9,\"agentUsed\":\"noah\",\"artifact\":\x7b\"title\":\"t\",\"content\":\"c\",\"type\":\"tool\"\x7d\x7d"

/-- Counterexample for C1 as frozen: `parse` succeeds on `c1x` with the
artifact present, yet `responseType` is `conversation` — not
`tool-generation` and not `research`. -/
theorem c1_artifact_conversation_cx :
    ((parse c1x (strL "noah")).response.bind (fun r => r.artifact)).isSome = true ∧
    (parse c1x (strL "noah")).response.map (fun r => r.responseType)
      = some (strL "conversation") ∧
    strL "conversation" ≠ strL "tool-generation" ∧
    strL "conversation" ≠ strL "research" :=
  ⟨by decide, by decide, by decide, by decide⟩

/-- Witness input for the amended C1: a legacy-format text (no JSON at all). -/
def c1w : Str := strL "TITLE: T\nTOOL: hi"

theorem c1_nonjson_artifact_responseType_wit :
    parseStructuredJSON c1w (strL "noah") = none ∧
    extractStructuredFromMixed c1w (strL "noah") = none ∧
    ((parse c1w (strL "noah")).response.bind (fun r => r.artifact)).isSome = true ∧
    ((parse c1w (strL "noah")).response.map (fun r => r.responseType)
        = some (strL "tool-generation") ∨
     (parse c1w (strL "noah")).response.map (fun r => r.responseType)
        = some (strL "research")) :=
  ⟨by decide, by decide, by decide,
   c1_nonjson_artifact_responseType c1w (strL "noah") (by decide) (by decide) (by decide)⟩

/-- Claim C4 (amended): `detectHTMLTool` succeeds only when an HTML marker is
present and the text length is **at least** 1000 (the source tests
`content.length < 1000`, so exactly 1000 passes); on success the response is
`tool-generation` with confidence 0.8 when a tool keyword occurs, else 0.6. -/
theorem c4_detectHTMLTool_spec (s a : Str)
    (h : (detectHTMLTool s a).isSome = true) :
    (hasHTMLb s = true ∧ 1000 ≤ s.length) ∧
    (detectHTMLTool s a).map (fun r => r.responseType) = some (strL "tool-generation") ∧
    (detectHTMLTool s a).map (fun r => r.confidence)
      = some (if hasToolKeywordb s then mkRat 8 10 else mkRat 6 10) := by
  by_cases hg : (hasHTMLb s && decide (1000 ≤ s.length)) = true
  · have hg1 := (Bool.and_eq_true _ _).mp hg
    refine ⟨⟨hg1.1, of_decide_eq_true hg1.2⟩, ?_⟩
    unfold detectHTMLTool
    rw [if_pos hg]
    exact ⟨rfl, rfl⟩
  · unfold detectHTMLTool at h
    rw [if_neg hg] at h
    simp at h

/-- Witness input for C4 of length exactly 1000 containing `<html`. -/
def c4w : Str := strL "<html" ++ List.replicate 995 'a'

/-- Counterexample for C4 as frozen: the strategy succeeds on a text whose
length does not exceed 1000 (it is exactly 1000). -/
theorem c4_html_len_1000_cx :
    c4w.length = 1000 ∧ ¬(1000 < c4w.length) ∧
    (detectHTMLTool c4w (strL "noah")).isSome = true :=
  ⟨by decide, by decide, by decide⟩

theorem c4_detectHTMLTool_spec_wit :
    (hasHTMLb c4w = true ∧ 1000 ≤ c4w.length) ∧
    (detectHTMLTool c4w (strL "noah")).map (fun r => r.responseType)
      = some (strL "tool-generation") ∧
    (detectHTMLTool c4w (strL "noah")).map (fun r => r.confidence)
      = some (if hasToolKeywordb c4w then mkRat 8 10 else mkRat 6 10) :=
  c4_detectHTMLTool_spec c4w (strL "noah") (by decide)

/-- Spec-side description of the legacy tool span (amended claim C5): the
text after the **first** `TOOL:` marker, with leading whitespace stripped,
cut at the first following blank-line `REASONING:` marker
(`"\n\nREASONING:"`) or running to the end of the text, trimmed and with a
wrapping fenced code block stripped. -/
def specLegacyToolContent (s : Str) : Str :=
  match afterFirst (strL "TOOL:") s with
  | some t => fenceStrip (trimL (cutAt nlnlReasoning (t.dropWhile wsC)))
  | none => []

theorem beforeFirst_cons_of_not_starts {pat u : Str} {c : Char}
    (h : startsWithL pat (c :: u) = false) :
    beforeFirst pat (c :: u) = (beforeFirst pat u).map (c :: ·) := by
  simp only [beforeFirst, h, Bool.false_eq_true, if_false]

theorem cutAt_cons_of_not_starts {pat u : Str} {c : Char}
    (h : startsWithL pat (c :: u) = false) :
    cutAt pat (c :: u) = c :: cutAt pat u := by
  unfold cutAt
  rw [beforeFirst_cons_of_not_starts h]
  cases hb : beforeFirst pat u with
  | none => simp
  | some pre => simp

/-- The regex-compiled `toolCapture`, trimmed and fence-stripped, agrees with
the spec-side description of the span. -/
theorem toolCapture_spec {s cap : Str} (h : toolCapture s = some cap) :
    fenceStrip (trimL cap) = specLegacyToolContent s := by
  unfold toolCapture at h
  cases ha : afterFirst (strL "TOOL:") s with
  | none => rw [ha] at h; simp at h
  | some t =>
    rw [ha] at h
    have h2 : (match t.dropWhile wsC with
        | c :: u => some (c :: cutAt nlnlReasoning u)
        | [] =>
          match t.reverse with
          | c :: _ => some [c]
          | [] => none) = some cap := h
    clear h
    unfold specLegacyToolContent
    rw [ha]
    show fenceStrip (trimL cap) = fenceStrip (trimL (cutAt nlnlReasoning (t.dropWhile wsC)))
    cases hd : t.dropWhile wsC with
    | cons c u =>
      rw [hd] at h2
      have hc : wsC c = false := dropWhile_head_false hd
      have hsw : startsWithL nlnlReasoning (c :: u) = false := by
        have hne : ('\n' == c) = false := by
          by_contra hb
          rw [Bool.not_eq_false, beq_iff_eq] at hb
          rw [← hb] at hc
          simp [wsC] at hc
        have e : nlnlReasoning = '\n' :: strL "\nREASONING:" := by decide
        rw [e]
        simp only [startsWithL, hne, Bool.false_and]
      have h3 : cap = c :: cutAt nlnlReasoning u := by
        cases h2; rfl
      rw [h3, cutAt_cons_of_not_starts hsw]
    | nil =>
      rw [hd] at h2
      cases hr : t.reverse with
      | nil => rw [hr] at h2; simp at h2
      | cons c rest =>
        rw [hr] at h2
        have h3 : cap = [c] := by cases h2; rfl
        have hcw : wsC c = true := by
          refine dropWhile_nil_all hd c ?_
          rw [← List.mem_reverse, hr]
          exact List.mem_cons_self c rest
        have ht1 : trimL [c] = [] := by
          simp [trimL, List.dropWhile, hcw]
        have ht2 : cutAt nlnlReasoning ([] : Str) = [] := by decide
        rw [h3, ht1, ht2]
        rfl

/-- Claim C5 (amended): the legacy strategy succeeds only when both `TITLE:`
and `TOOL:` occur; on success the confidence is 0.7 and the artifact content
is the spec-side span after the first `TOOL:` marker — cut at a
**blank-line** `REASONING:` marker (`"\n\nREASONING:"`), not at a bare
`REASONING:`. -/
theorem c5_legacy_format_spec (s a : Str)
    (h : (parseLegacyFormat s a).isSome = true) :
    (includesL (strL "TITLE:") s = true ∧ includesL (strL "TOOL:") s = true) ∧
    (parseLegacyFormat s a).map (fun r => r.confidence) = some (mkRat 7 10) ∧
    ((parseLegacyFormat s a).bind (fun r => r.artifact)).map (fun art => art.content)
      = some (specLegacyToolContent s) := by
  unfold parseLegacyFormat at h ⊢
  by_cases hg : (includesL (strL "TITLE:") s && includesL (strL "TOOL:") s) = true
  · have hg1 := (Bool.and_eq_true _ _).mp hg
    refine ⟨hg1, ?_⟩
    rw [if_pos hg] at h ⊢
    cases ht : titleCapture s with
    | none => rw [ht] at h; simp at h
    | some tm =>
      cases hu : toolCapture s with
      | none => rw [ht, hu] at h; simp at h
      | some um =>
        exact ⟨rfl, by simp [toolCapture_spec hu]⟩
  · rw [if_neg hg] at h
    simp at h

/-- Counterexample input for C5 as frozen: a single newline (no blank line)
before `REASONING:`. -/
def c5x : Str := strL "TITLE: T\nTOOL: x\nREASONING: y"

/-- Counterexample for C5 as frozen: the extracted artifact content runs past
the `REASONING:` marker (it is `"x\nREASONING: y"`), so the content is not
cut at a following bare `REASONING:` marker. -/
theorem c5_single_newline_reasoning_cx :
    ((parseLegacyFormat c5x (strL "noah")).bind (fun r => r.artifact)).map
        (fun art => art.content) = some (strL "x\nREASONING: y") ∧
    includesL (strL "REASONING:") (strL "x\nREASONING: y") = true :=
  ⟨by decide, by decide⟩

/-- Witness input for the amended C5, with a blank-line `REASONING:` marker
and a fenced tool block. -/
def c5w : Str :=
  strL "TITLE: Tip Calculator\nTOOL:\n```html\n<html>x</html>\n```\n\nREASONING: simple"

theorem c5_legacy_format_spec_wit :
    (includesL (strL "TITLE:") c5w = true ∧ includesL (strL "TOOL:") c5w = true) ∧
    (parseLegacyFormat c5w (strL "noah")).map (fun r => r.confidence) = some (mkRat 7 10) ∧
    ((parseLegacyFormat c5w (strL "noah")).bind (fun r => r.artifact)).map
        (fun art => art.content) = some (specLegacyToolContent c5w) :=
  c5_legacy_format_spec c5w (strL "noah") (by decide)

/-- Claim C6: whenever the pure-JSON strategy succeeds, `parse` returns its
result — even if the text also contains `TITLE:`/`TOOL:` markers — and the
returned confidence is the number carried by the JSON, not the legacy
strategy's 0.7. -/
theorem c6_pure_json_priority (text agent : Str)
    (h1 : (parseStructuredJSON text agent).isSome = true)
    (_h2 : includesL (strL "TITLE:") text = true)
    (_h3 : includesL (strL "TOOL:") text = true) :
    parse text agent =
      { success := true, response := parseStructuredJSON text agent,
        fallbackContent := none, error := none } ∧
    (parse text agent).response.map (fun r => r.confidence)
      = (jsonParse (trimL text)).map (fun v => jNumD (jGet v (strL "confidence"))) := by
  cases hp : parseStructuredJSON text agent with
  | none => rw [hp] at h1; simp at h1
  | some r =>
    have hparse : parse text agent =
        { success := true, response := some r, fallbackContent := none, error := none } := by
      unfold parse
      rw [hp]
    refine ⟨hparse, ?_⟩
    rw [hparse]
    simp only [parseStructuredJSON] at hp
    by_cases hg : (startsWithL [lbrace] (trimL text) &&
        startsWithL [rbrace] (trimL text).reverse) = true
    · rw [if_pos hg] at hp
      cases hj : jsonParse (trimL text) with
      | none => rw [hj] at hp; simp at hp
      | some v =>
        rw [hj] at hp
        replace hp : (if isValidStructuredResponse v = true
            then some (jsonToResponse v) else none) = some r := hp
        by_cases hv : isValidStructuredResponse v = true
        · rw [if_pos hv] at hp
          have hr : jsonToResponse v = r := Option.some.inj hp
          subst hr
          simp [jsonToResponse]
        · rw [if_neg hv] at hp
          simp at hp
    · rw [if_neg hg] at hp
      simp at hp

/-- Witness input for C6: structured JSON whose `content` string carries
`TITLE:` and `TOOL:` markers; the JSON's confidence 0.9 wins. -/
def c6x : Str :=
  strL "\x7b\"content\":\"TITLE: x TOOL: y\",\"responseType\":\"conversation\",\"confidence\":0.9,\"agentUsed\":\"noah\"\x7d"

theorem c6_pure_json_priority_wit :
    parse c6x (strL "noah") =
      { success := true, response := parseStructuredJSON c6x (strL "noah"),
        fallbackContent := none, error := none } ∧
    (parse c6x (strL "noah")).response.map (fun r => r.confidence)
      = (jsonParse (trimL c6x)).map (fun v => jNumD (jGet v (strL "confidence"))) :=
  c6_pure_json_priority c6x (strL "noah") (by decide) (by decide) (by decide)

/-- Claim C7: a valid top-level structured JSON whose `artifact` field is
present but fails the artifact shape-check parses successfully with the
artifact dropped and the `content` string preserved. -/
theorem c7_invalid_artifact_dropped (text agent : Str)
    (h1 : (parseStructuredJSON text agent).isSome = true)
    (h2 : (jsonParse (trimL text)).map
        (fun v =>
          match jGet v (strL "artifact") with
          | some a => isValidArtifact a
          | none => true) = some false) :
    (parse text agent).response.map (fun r => r.artifact) = some none ∧
    (parse text agent).response.map (fun r => r.content)
      = (jsonParse (trimL text)).map (fun v => jStrD (jGet v (strL "content"))) := by
  cases hp : parseStructuredJSON text agent with
  | none => rw [hp] at h1; simp at h1
  | some r =>
    have hparse : parse text agent =
        { success := true, response := some r, fallbackContent := none, error := none } := by
      unfold parse
      rw [hp]
    rw [hparse]
    simp only [parseStructuredJSON] at hp
    by_cases hg : (startsWithL [lbrace] (trimL text) &&
        startsWithL [rbrace] (trimL text).reverse) = true
    · rw [if_pos hg] at hp
      cases hj : jsonParse (trimL text) with
      | none => rw [hj] at hp; simp at hp
      | some v =>
        rw [hj] at hp h2
        replace hp : (if isValidStructuredResponse v = true
            then some (jsonToResponse v) else none) = some r := hp
        by_cases hv : isValidStructuredResponse v = true
        · rw [if_pos hv] at hp
          have hr : jsonToResponse v = r := Option.some.inj hp
          subst hr
          replace h2 : (match jGet v (strL "artifact") with
              | some a => isValidArtifact a
              | none => true) = false := Option.some.inj h2
          cases hart : jGet v (strL "artifact") with
          | none => rw [hart] at h2; simp at h2
          | some a2 =>
            rw [hart] at h2
            have hbad : isValidArtifact a2 = false := h2
            constructor
            · simp [jsonToResponse, hart, hbad]
            · simp [jsonToResponse]
        · rw [if_neg hv] at hp
          simp at hp
    · rw [if_neg hg] at hp
      simp at hp

/-- Witness input for C7: valid response JSON whose artifact has no `title`. -/
def c7x : Str :=
  strL "\x7b\"content\":\"hi\",\"responseType\":\"conversation\",\"confidence\":0.9,\"agentUsed\":\"noah\",\"artifact\":\x7b\"content\":\"c\",\"type\":\"tool\"\x7d\x7d"

theorem c7_invalid_artifact_dropped_wit :
    (parse c7x (strL "noah")).response.map (fun r => r.artifact) = some none ∧
    (parse c7x (strL "noah")).response.map (fun r => r.content)
      = (jsonParse (trimL c7x)).map (fun v => jStrD (jGet v (strL "content"))) :=
  c7_invalid_artifact_dropped c7x (strL "noah") (by decide) (by decide)

theorem parseStructuredJSON_none_of_nolb {s a : Str}
    (h : ∀ x ∈ s, x ≠ lbrace) : parseStructuredJSON s a = none := by
  simp only [parseStructuredJSON]
  have hg : startsWithL [lbrace] (trimL s) = false := by
    by_contra hb
    rw [Bool.not_eq_false] at hb
    exact h lbrace (mem_of_mem_trimL (startsWith_single hb)) rfl
  simp [hg]

theorem fenceJsonAt_none_of_nolb {t : Str}
    (h : ∀ x ∈ t, x ≠ lbrace) : fenceJsonAt t = none := by
  unfold fenceJsonAt
  cases hd : t.dropWhile wsC with
  | nil => rfl
  | cons c u =>
    have hc : c ≠ lbrace := h c (mem_of_mem_dropWhileL (by rw [hd]; exact List.mem_cons_self c u))
    have hb : (c == lbrace) = false := by simpa using hc
    simp [hb]

theorem jsonFenceGroup_none_of_nolb {s : Str}
    (h : ∀ x ∈ s, x ≠ lbrace) : jsonFenceGroup s = none := by
  induction s with
  | nil => rfl
  | cons c t ih =>
    have ht : ∀ x ∈ t, x ≠ lbrace := fun x hx => h x (List.mem_cons_of_mem c hx)
    have hat : fenceJsonAt (List.drop 7 (c :: t)) = none :=
      fenceJsonAt_none_of_nolb (fun x hx => h x (mem_of_mem_dropL 7 hx))
    unfold jsonFenceGroup
    by_cases hsw : startsWithL (strL "```json") (c :: t) = true
    · rw [if_pos hsw, hat]
      exact ih ht
    · rw [if_neg hsw]
      exact ih ht

theorem rawJsonGroup_none_of_nolb {s : Str}
    (h : ∀ x ∈ s, x ≠ lbrace) : rawJsonGroup s = none := by
  induction s with
  | nil => rfl
  | cons c t ih =>
    have ht : ∀ x ∈ t, x ≠ lbrace := fun x hx => h x (List.mem_cons_of_mem c hx)
    have hc : (c == lbrace) = false := by simpa using h c (List.mem_cons_self c t)
    unfold rawJsonGroup
    rw [hc]
    exact ih ht

theorem extractStructuredFromMixed_none_of_nolb {s a : Str}
    (h : ∀ x ∈ s, x ≠ lbrace) : extractStructuredFromMixed s a = none := by
  unfold extractStructuredFromMixed
  rw [jsonFenceGroup_none_of_nolb h, rawJsonGroup_none_of_nolb h]

theorem detectHTMLTool_none_of {s a : Str}
    (hg : (hasHTMLb s && decide (1000 ≤ s.length)) = false) :
    detectHTMLTool s a = none := by
  unfold detectHTMLTool
  simp [hg]

theorem detectResearchResult_none_of {s a : Str}
    (hi : researchIndicators.any (fun i => includesL i (lowerStr s)) = false) :
    detectResearchResult s a = none := by
  unfold detectResearchResult
  split
  · rfl
  · simp [hi]

theorem parseLegacyFormat_none_of {s a : Str}
    (h2 : includesL (strL "TITLE:") s = false) :
    parseLegacyFormat s a = none := by
  unfold parseLegacyFormat
  simp [h2]

/-- Claim C8: a text with no `{` character (hence no parsable or extractable
JSON object), neither `TITLE:` nor `TOOL:` marker, no HTML of length at least
1000, and no research-indicator word falls through to the conversation
fallback: success, `responseType` `conversation`, confidence 0.8, no
artifact, and `content` exactly the input text. -/
theorem c8_conversation_fallback (text agent : Str)
    (h1 : ∀ x ∈ text, x ≠ lbrace)
    (h2 : includesL (strL "TITLE:") text = false)
    (_h3 : includesL (strL "TOOL:") text = false)
    (h4 : (hasHTMLb text && decide (1000 ≤ text.length)) = false)
    (h5 : researchIndicators.any (fun i => includesL i (lowerStr text)) = false) :
    parse text agent =
      { success := true
        response := some
          { content := text, artifact := none, responseType := strL "conversation",
            confidence := mkRat 8 10, reasoning := none, agentUsed := agent }
        fallbackContent := none
        error := none } := by
  unfold parse
  rw [parseStructuredJSON_none_of_nolb h1, extractStructuredFromMixed_none_of_nolb h1,
      detectHTMLTool_none_of h4, detectResearchResult_none_of h5,
      parseLegacyFormat_none_of h2]

/-- Witness input for C8. -/
def c8w : Str := strL "hello there, how are you?"

theorem c8_conversation_fallback_wit :
    parse c8w (strL "noah") =
      { success := true
        response := some
          { content := c8w, artifact := none, responseType := strL "conversation",
            confidence := mkRat 8 10, reasoning := none, agentUsed := strL "noah" }
        fallbackContent := none
        error := none } :=
  c8_conversation_fallback c8w (strL "noah")
    (by decide) (by decide) (by decide) (by decide) (by decide)

end ParserTheorems

end TryItAI
